import Mathlib

/-!
# xpromptpoint: a verification development of `src/main.c`

The program grabs the pointer (or button 1) from the X server, follows a
press / motion / release sequence and prints a point or a rectangle.

The embedding below follows `main.c` statement by statement.  The process is a
record `State` holding the C globals (`screen`, `running`, `grab_pointer`,
`print_window`, `output_type`), the locals of `main` that outlive one statement
(`show_usage`, `report_motion`, `click`) and three observable traces: the text
written with `printf` (`out`), the text written with `fprintf(stderr, ...)`
(`err`) and the calls made on the xcb connection (`calls`).

The environment of one execution (`Env`) supplies everything the C code
receives from outside: `argv`, whether the connection failed, the root window,
the cursor, the grab reply and the values successively returned by
`xcb_wait_for_event` (`none` is the `NULL` pointer).
-/

namespace Xpromptpoint

/-! ## Machine integers and `printf` conversions -/

/-- Two's complement reduction of an integer to the range of a 32-bit `int`. -/
def wrap32 (x : Int) : Int := (x + 2147483648) % 4294967296 - 2147483648

/-- Range of an `int16_t`, the type of `root_x` and `root_y` in xcb events. -/
def InInt16 (x : Int) : Prop := -32768 ≤ x ∧ x ≤ 32767

instance (x : Int) : Decidable (InInt16 x) := by
  unfold InInt16; infer_instance

/-- The `%i` conversion of `printf`: signed decimal. -/
def fmt_i (n : Int) : String := toString n

/-- The `%X` conversion of `printf`: upper-case hexadecimal, no leading zeros. -/
def fmt_X (n : Nat) : String := String.mk ((Nat.toDigits 16 n).map Char.toUpper)

/-! ## Constants of the X protocol headers used by `main.c` -/

def XCB_NONE : Nat := 0
def XCB_BUTTON_PRESS : Nat := 4
def XCB_BUTTON_RELEASE : Nat := 5
def XCB_MOTION_NOTIFY : Nat := 6
def XCB_GRAB_STATUS_SUCCESS : Nat := 0
def XCB_GRAB_STATUS_ALREADY_GRABBED : Nat := 1
def XCB_GRAB_STATUS_FROZEN : Nat := 4

/-! ## Data model -/

/-- The anonymous enum of `main.c` lines 14-19 (type of `output_type`). -/
inductive OutputType
  | OUTPUT_PRESS
  | OUTPUT_RELEASE
  | OUTPUT_GEOMETRY
  | OUTPUT_JSON
  deriving DecidableEq

open OutputType

/-- The record `struct click_info` of `main.c` lines 21-32. -/
structure click_info where
  press_x : Int
  press_y : Int
  release_x : Int
  release_y : Int
  min_x : Int
  min_y : Int
  width : Int
  height : Int
  press_window : Nat
  release_window : Nat
  deriving DecidableEq

/-- The record `struct motion_info` of `main.c` lines 34-38. -/
structure motion_info where
  x : Int
  y : Int
  window : Nat
  deriving DecidableEq

/-- An event record as delivered by `xcb_wait_for_event`.  Only the fields
read by `main.c` are kept: `response_type` (a `uint8_t`), and the fields
`root_x`, `root_y` (`int16_t`) and `child` (a 32-bit window id) that button
and motion events share at the same offsets. -/
structure xcb_generic_event where
  response_type : Nat
  root_x : Int
  root_y : Int
  child : Nat
  deriving DecidableEq

/-- The calls made on the xcb connection, in the order they are made. -/
inductive XcbCall
  | connect
  | grab_pointer (root cursor : Nat)
  | grab_button (root cursor : Nat)
  | allow_events
  | ungrab_pointer
  | ungrab_button (root : Nat)
  | flush
  deriving DecidableEq

/-- How an execution (or a prefix of one) ends: the process exited with a
status, it dereferenced the `NULL` event pointer, or it is still blocked inside
`xcb_wait_for_event` because no further event has been delivered yet. -/
inductive Outcome
  | exited (status : Int)
  | crashed
  | blocked
  deriving DecidableEq

/-- The variables of the process together with its observable traces. -/
structure State where
  screen : Option Nat
  running : Bool
  grab_pointer : Bool
  print_window : Bool
  output_type : OutputType
  show_usage : Bool
  report_motion : Bool
  click : click_info
  out : String
  err : String
  calls : List XcbCall
  deriving DecidableEq

/-- Everything one execution receives from outside the program. -/
structure Env where
  argv0 : String
  args : List String
  connection_error : Bool
  root : Nat
  cursor_context : Option Nat
  grab_reply : Option Nat
  events : List (Option xcb_generic_event)
  stack_click : click_info

/-- The result of running `main` on an environment: the final state, the
events that were never fetched, and how the run ended. -/
structure Run where
  state : State
  pending : List (Option xcb_generic_event)
  outcome : Outcome
  deriving DecidableEq

/-! ## Output primitives -/

/-- Text appended to the result channel (`printf`). -/
def printf (s : State) (text : String) : State := { s with out := s.out ++ text }

/-- Text appended to the diagnostic channel (`fprintf(stderr, ...)`). -/
def eprintf (s : State) (text : String) : State := { s with err := s.err ++ text }

/-- A call made on the connection is appended to the call trace. -/
def xcb (s : State) (c : XcbCall) : State := { s with calls := s.calls ++ [c] }

/-- The text printed by `print_click_json` (`main.c` lines 40-46). -/
def click_json_line (c : click_info) : String :=
  "\x7b\"type\": \"click\", \"x\": " ++ fmt_i c.min_x ++ ", \"y\": " ++ fmt_i c.min_y ++
  ", \"width\": " ++ fmt_i c.width ++ ", \"height\": " ++ fmt_i c.height ++
  ", \"press\": \x7b\"window\": \"0x" ++ fmt_X c.press_window ++
  "\", \"x\": " ++ fmt_i c.press_x ++ ", \"y\": " ++ fmt_i c.press_y ++
  "\x7d, \"release\": \x7b\"window\": \"0x" ++ fmt_X c.release_window ++
  "\", \"x\": " ++ fmt_i c.release_x ++ ", \"y\": " ++ fmt_i c.release_y ++ "\x7d\x7d\n"

def print_click_json (c : click_info) (s : State) : State :=
  printf s (click_json_line c)

/-- The text printed by `print_motion_json` (`main.c` lines 48-52). -/
def motion_json_line (m : motion_info) : String :=
  "\x7b\"type\": \"motion\", \"window\": \"0x" ++ fmt_X m.window ++
  "\", \"x\": " ++ fmt_i m.x ++ ", \"y\": " ++ fmt_i m.y ++ "\x7d\n"

def print_motion_json (m : motion_info) (s : State) : State :=
  printf s (motion_json_line m)

/-- The line `window 0x<id>` of `maybe_print_window`. -/
def window_line (wid : Nat) : String := "window 0x" ++ fmt_X wid ++ "\n"

def maybe_print_window (wid : Nat) (s : State) : State :=
  if s.print_window then printf s (window_line wid) else s

/-- The first line printed by `print_click_geometry`. -/
def geometry_line (c : click_info) : String :=
  fmt_i c.width ++ "x" ++ fmt_i c.height ++ "+" ++ fmt_i c.min_x ++ "+" ++ fmt_i c.min_y ++ "\n"

def print_click_geometry (c : click_info) (s : State) : State :=
  maybe_print_window c.release_window (printf s (geometry_line c))

/-- The line `X Y` printed for a press or a release position. -/
def point_line (x y : Int) : String := fmt_i x ++ " " ++ fmt_i y ++ "\n"

def print_click_press (c : click_info) (s : State) : State :=
  maybe_print_window c.press_window (printf s (point_line c.press_x c.press_y))

def print_click_release (c : click_info) (s : State) : State :=
  maybe_print_window c.release_window (printf s (point_line c.release_x c.release_y))

/-- The first line printed by `print_motion`. -/
def motion_line (m : motion_info) : String :=
  "motion " ++ fmt_i m.x ++ " " ++ fmt_i m.y ++ "\n"

def print_motion (m : motion_info) (s : State) : State :=
  maybe_print_window m.window (printf s (motion_line m))

/-! ## Release of the grab -/

/-- The ungrab request selected by `grab_pointer`, as written both in
`sig_handler` (lines 92-103) and at the end of `main` (lines 376-387). -/
def ungrab_call (grab_pointer : Bool) (root : Nat) : XcbCall :=
  if grab_pointer then XcbCall.ungrab_pointer else XcbCall.ungrab_button root

/-- The signal handler `sig_handler` (`main.c` lines 88-108): when `screen` is
set it ungrabs according to `grab_pointer` and flushes; it then clears
`running` and calls `exit(0)`. -/
def sig_handler (s : State) : State × Outcome :=
  let s1 :=
    match s.screen with
    | some root => xcb (xcb s (ungrab_call s.grab_pointer root)) XcbCall.flush
    | none => s
  ({ s1 with running := false }, Outcome.exited 0)

/-! ## Argument parsing (`main.c` lines 116-189) -/

/-- One letter of a short option, the `switch` of lines 167-180; `none` is
the `default` branch. -/
def short_option (ch : Char) (s : State) : Option State :=
  if ch = 'G' then some { s with grab_pointer := true }
  else if ch = 'm' then some { s with report_motion := true }
  else if ch = 'w' then some { s with print_window := true }
  else if ch = 'h' then some { s with show_usage := true }
  else if ch = 'p' then some { s with output_type := OUTPUT_PRESS }
  else if ch = 'r' then some { s with output_type := OUTPUT_RELEASE }
  else if ch = 'g' then some { s with output_type := OUTPUT_GEOMETRY }
  else if ch = 'j' then some { s with output_type := OUTPUT_JSON }
  else none

/-- The loop `while (arg[1] != 0)` of lines 164-181 over the characters that
follow the leading dash.  An unknown letter writes the diagnostic and makes
`main` return 2 (`Except.error` carries the state at that return). -/
def parse_short : List Char → State → Except State State
  | [], s => Except.ok s
  | ch :: rest, s =>
    match short_option ch s with
    | some s1 => parse_short rest s1
    | none => Except.error (eprintf s ("Unknown option: \"-" ++ String.singleton ch ++ "\"\n"))

/-- The `strcmp` chain of lines 124-160 on the text after the two dashes;
`none` is the final `else`. -/
def long_option (name : String) (s : State) : Option State :=
  if name = "grab" then some { s with grab_pointer := true }
  else if name = "motion" then some { s with report_motion := true }
  else if name = "window" then some { s with print_window := true }
  else if name = "help" then some { s with show_usage := true }
  else if name = "press" then some { s with output_type := OUTPUT_PRESS }
  else if name = "release" then some { s with output_type := OUTPUT_RELEASE }
  else if name = "geometry" then some { s with output_type := OUTPUT_GEOMETRY }
  else if name = "json" then some { s with output_type := OUTPUT_JSON }
  else none

/-- The body of the argument loop for one argument (lines 118-188).
Arguments are C strings: they hold no NUL character. -/
def parse_arg (arg : String) (s : State) : Except State State :=
  match arg.data with
  | '-' :: '-' :: name =>
    match long_option (String.mk name) s with
    | some s1 => Except.ok s1
    | none => Except.error (eprintf s ("Unknown option: \"" ++ arg ++ "\"\n"))
  | '-' :: rest => parse_short rest s
  | _ => Except.error (eprintf s ("Option expected: \"" ++ arg ++ "\"\n"))

/-- The argument loop `for (argi = 1; argi < argc; argi++)`. -/
def parse_args : List String → State → Except State State
  | [], s => Except.ok s
  | arg :: rest, s =>
    match parse_arg arg s with
    | Except.ok s1 => parse_args rest s1
    | Except.error s1 => Except.error s1

/-- The usage text of lines 193-205. -/
def usage_text (argv0 : String) : String :=
  "Usage: " ++ argv0 ++ " <OPTIONS...>\n" ++
  "Basic options:\n" ++
  "  -G, --grab              Grab pointer (else grab button)\n" ++
  "  -m, --motion            Report motion events\n" ++
  "  -w, --window            Print window id (always in json)\n" ++
  "  -h, --help              Show this message\n" ++
  "Output options (mutually exclusive):\n" ++
  "  -p, --press             Print press position\n" ++
  "  -r, --release           Print release position (default)\n" ++
  "  -g, --geometry          Print geometry of selected rectangle" ++
  " (WxH+X+Y)\n" ++
  "  -j, --json              Print all data in JSON\n"

/-! ## The event loop (`main.c` lines 289-374) -/

/-- The value switched on at line 300, `event->response_type & ~0x80`: the
`uint8_t` is promoted to `int` and bit 7 is cleared. -/
def event_code (event : xcb_generic_event) : Nat :=
  Nat.land event.response_type 0xFFFFFF7F

/-- The press branch, lines 306-318. -/
def on_press (event : xcb_generic_event) (s : State) : State :=
  let c : click_info :=
    { s.click with
      press_window := event.child
      press_x := event.root_x
      press_y := event.root_y
      min_x := event.root_x
      min_y := event.root_y }
  let s1 := { s with click := c }
  if s1.output_type = OUTPUT_PRESS then
    { print_click_press c s1 with running := s1.report_motion }
  else s1

/-- The assignments of the release branch, lines 321-331. -/
def release_click (event : xcb_generic_event) (c0 : click_info) : click_info :=
  let c1 : click_info :=
    { c0 with
      release_window := event.child
      release_x := event.root_x
      release_y := event.root_y }
  let c2 : click_info := if c1.min_x > c1.release_x then { c1 with min_x := c1.release_x } else c1
  let c3 : click_info := if c2.min_y > c2.release_y then { c2 with min_y := c2.release_y } else c2
  let c4 : click_info :=
    { c3 with width := wrap32 (wrap32 (c3.press_x + c3.release_x) - wrap32 (2 * c3.min_x)) }
  { c4 with height := wrap32 (wrap32 (c4.press_y + c4.release_y) - wrap32 (2 * c4.min_y)) }

/-- The release branch, lines 319-347. -/
def on_release (event : xcb_generic_event) (s : State) : State :=
  let c := release_click event s.click
  let s1 := { s with click := c }
  let s2 :=
    match s1.output_type with
    | OUTPUT_PRESS => s1
    | OUTPUT_RELEASE => print_click_release c s1
    | OUTPUT_GEOMETRY => print_click_geometry c s1
    | OUTPUT_JSON => print_click_json c s1
  { s2 with running := false }

/-- The motion branch, lines 350-368. -/
def on_motion (event : xcb_generic_event) (s : State) : State :=
  if s.report_motion then
    let m : motion_info := { x := event.root_x, y := event.root_y, window := event.child }
    if s.output_type = OUTPUT_JSON then print_motion_json m s else print_motion m s
  else s

/-- The `switch` of lines 300-372 on an event that was delivered. -/
def handle_event (event : xcb_generic_event) (s : State) : State :=
  if event_code event = XCB_BUTTON_PRESS then on_press event s
  else if event_code event = XCB_BUTTON_RELEASE then on_release event s
  else if event_code event = XCB_MOTION_NOTIFY then on_motion event s
  else eprintf s ("Event " ++ fmt_i (event_code event) ++ "\n")

/-- How the loop of lines 289-374 stops on a given sequence of deliveries. -/
inductive LoopEnd
  | finished
  | crashed
  | blocked
  deriving DecidableEq

/-- The loop `while (running)`.  The list holds the values returned by the
successive calls of `xcb_wait_for_event`; `none` is `NULL`.  Each iteration
first calls `xcb_allow_events` and `xcb_flush`.  On `NULL` the body clears
`running`, writes `No event.` and then reads `event->response_type` through the
null pointer (line 300), which ends the process there.  When the list is
used up the process is blocked in `xcb_wait_for_event`. -/
def event_loop : List (Option xcb_generic_event) → State → State × List (Option xcb_generic_event) × LoopEnd
  | [], s =>
    if s.running then (xcb (xcb s XcbCall.allow_events) XcbCall.flush, [], LoopEnd.blocked)
    else (s, [], LoopEnd.finished)
  | ev :: rest, s =>
    if s.running then
      let s1 := xcb (xcb s XcbCall.allow_events) XcbCall.flush
      match ev with
      | none => (eprintf { s1 with running := false } "No event.\n", rest, LoopEnd.crashed)
      | some event => event_loop rest (handle_event event s1)
    else (s, ev :: rest, LoopEnd.finished)

/-! ## `main` -/

/-- The state at program start: globals as initialised in lines 9-19, the
locals `show_usage` and `report_motion` zero, and `click_info` holding whatever
the stack holds. -/
def initial_state (stack_click : click_info) : State :=
  { screen := none
    running := false
    grab_pointer := false
    print_window := false
    output_type := OUTPUT_RELEASE
    show_usage := false
    report_motion := false
    click := stack_click
    out := ""
    err := ""
    calls := [] }

/-- The grab of lines 236-287, followed by the flush of line 287. -/
def acquire (env : Env) (s : State) : State :=
  let cursor := match env.cursor_context with
    | some c => c
    | none => XCB_NONE
  let s1 :=
    if s.grab_pointer then
      let s2 := xcb s (XcbCall.grab_pointer env.root cursor)
      match env.grab_reply with
      | some status =>
        let s3 :=
          if status = XCB_GRAB_STATUS_SUCCESS then s2
          else if status = XCB_GRAB_STATUS_ALREADY_GRABBED then eprintf s2 "grab pointer already_grabbed\n"
          else if status = XCB_GRAB_STATUS_FROZEN then eprintf s2 "grab pointer frozen\n"
          else eprintf s2 "grab pointer error\n"
        if status ≠ XCB_GRAB_STATUS_SUCCESS then { s3 with running := false } else s3
      | none => s2
    else xcb s (XcbCall.grab_button env.root cursor)
  xcb s1 XcbCall.flush

/-- The statements of lines 376-388: ungrab according to `grab_pointer`, then
`return 0`. -/
def release_and_return (root : Nat) (s : State) : State :=
  xcb s (ungrab_call s.grab_pointer root)

/-- The function `main` (lines 110-389). -/
def main (env : Env) : Run :=
  match parse_args env.args (initial_state env.stack_click) with
  | Except.error s => { state := s, pending := env.events, outcome := Outcome.exited 2 }
  | Except.ok s =>
    if s.show_usage then
      { state := printf s (usage_text env.argv0), pending := env.events, outcome := Outcome.exited 0 }
    else
      let s1 := xcb s XcbCall.connect
      if env.connection_error then
        { state := eprintf s1 "Error opening display.\n", pending := env.events, outcome := Outcome.exited 1 }
      else
        let s2 := { s1 with screen := some env.root, running := true }
        let s3 := acquire env s2
        match event_loop env.events s3 with
        | (s4, rest, LoopEnd.finished) =>
          { state := release_and_return env.root s4, pending := rest, outcome := Outcome.exited 0 }
        | (s4, rest, LoopEnd.crashed) => { state := s4, pending := rest, outcome := Outcome.crashed }
        | (s4, rest, LoopEnd.blocked) => { state := s4, pending := rest, outcome := Outcome.blocked }

/-! ## Auxiliary notions used in the statements -/

/-- One pass through the loop body on a delivered event: the calls of lines
291-292, then the `switch`. -/
def loop_iteration (event : xcb_generic_event) (s : State) : State :=
  handle_event event (xcb (xcb s XcbCall.allow_events) XcbCall.flush)

/-- Successive passes through the loop body on a list of delivered events. -/
def loop_iterations : List xcb_generic_event → State → State
  | [], s => s
  | event :: rest, s => loop_iterations rest (loop_iteration event s)

/-- An event that is neither a button press nor a button release. -/
def not_button (event : xcb_generic_event) : Prop :=
  event_code event ≠ XCB_BUTTON_PRESS ∧ event_code event ≠ XCB_BUTTON_RELEASE

instance (event : xcb_generic_event) : Decidable (not_button event) := by
  unfold not_button; infer_instance

/-- An event that reaches neither the button branches nor, when motion is
reported, the motion branch. -/
def silent (report_motion : Bool) (event : xcb_generic_event) : Prop :=
  not_button event ∧ (report_motion = true → event_code event ≠ XCB_MOTION_NOTIFY)

instance (report_motion : Bool) (event : xcb_generic_event) :
    Decidable (silent report_motion event) := by
  unfold silent; infer_instance

/-- What a reported motion event writes in the plain formats: the motion line
and, when requested, the window line. -/
def motion_text (print_window : Bool) (event : xcb_generic_event) : String :=
  motion_line { x := event.root_x, y := event.root_y, window := event.child } ++
    (if print_window then window_line event.child else "")

/-- What the press result consists of: the position line and, when requested,
the window line. -/
def press_text (print_window : Bool) (event : xcb_generic_event) : String :=
  point_line event.root_x event.root_y ++
    (if print_window then window_line event.child else "")

/-- The format a long option names, if it is a format flag. -/
def long_format (name : String) : Option OutputType :=
  if name = "press" then some OUTPUT_PRESS
  else if name = "release" then some OUTPUT_RELEASE
  else if name = "geometry" then some OUTPUT_GEOMETRY
  else if name = "json" then some OUTPUT_JSON
  else none

/-- The format a short option letter names, if it is a format flag. -/
def short_format (ch : Char) : Option OutputType :=
  if ch = 'p' then some OUTPUT_PRESS
  else if ch = 'r' then some OUTPUT_RELEASE
  else if ch = 'g' then some OUTPUT_GEOMETRY
  else if ch = 'j' then some OUTPUT_JSON
  else none

/-- The format flags that occur in one argument, in order: the flag of a long
option, or the format letters of a bundled short option. -/
def arg_format_flags (arg : String) : List OutputType :=
  match arg.data with
  | '-' :: '-' :: name => (long_format (String.mk name)).toList
  | '-' :: rest => rest.filterMap short_format
  | _ => []

/-- The format flags that occur in an argument list, in order. -/
def format_flags : List String → List OutputType
  | [] => []
  | arg :: rest => arg_format_flags arg ++ format_flags rest

/-- The Output Mode the specification assigns to an argument list: the one
named by the last format flag, `OUTPUT_RELEASE` when there is none. -/
def last_format_flag (args : List String) : OutputType :=
  (format_flags args).getLast?.getD OUTPUT_RELEASE

/-- The arguments the usage text describes: a long option with one of the
eight names, or a dash followed by any number of the eight letters. -/
def well_formed_arg (arg : String) : Bool :=
  match arg.data with
  | '-' :: '-' :: name =>
    decide (String.mk name ∈
      ["grab", "motion", "window", "help", "press", "release", "geometry", "json"])
  | '-' :: rest => rest.all (fun ch => decide (ch ∈ ['G', 'm', 'w', 'h', 'p', 'r', 'g', 'j']))
  | _ => false

/-- The part of the state that option parsing never writes. -/
def same_process (s t : State) : Prop :=
  t.screen = s.screen ∧ t.running = s.running ∧ t.click = s.click ∧ t.out = s.out ∧
    t.err = s.err ∧ t.calls = s.calls

instance (s t : State) : Decidable (same_process s t) := by
  unfold same_process; infer_instance

/-- Range of a 32-bit `int`. -/
def InInt32 (x : Int) : Prop := -2147483648 ≤ x ∧ x ≤ 2147483647

instance (x : Int) : Decidable (InInt32 x) := by
  unfold InInt32; infer_instance

/-- An unknown flag: an argument that starts with a dash and is neither one of
the eight long options nor a bundle of the eight letters. -/
def unknown_flag (arg : String) : Bool :=
  match arg.data with
  | '-' :: _ => !well_formed_arg arg
  | _ => false

/-- A help flag: the long option `--help`, or a short option holding the
letter `h`. -/
def help_flag (arg : String) : Bool :=
  match arg.data with
  | '-' :: '-' :: name => decide (String.mk name = "help")
  | '-' :: rest => decide ('h' ∈ rest)
  | _ => false

/-- The short option made of one letter. -/
def short_arg (ch : Char) : String := String.mk ['-', ch]

/-- The bundled short option made of a list of letters. -/
def bundle_arg (letters : List Char) : String := String.mk ('-' :: letters)

/-- The same execution with another argument list. -/
def with_args (env : Env) (args : List String) : Env := { env with args := args }

/-- What an argument error leaves behind, relative to the state before the
failing argument: one diagnostic on the diagnostic channel, nothing on the
result channel, no call on the connection. -/
def argument_error (s e : State) : Prop :=
  e.out = s.out ∧ e.calls = s.calls ∧
    ∃ text : String,
      e.err = s.err ++ ("Unknown option: \"" ++ text ++ "\"\n") ∨
      e.err = s.err ++ ("Option expected: \"" ++ text ++ "\"\n")

/-- What one delivered event writes on the result channel in PressOnly mode
with motion reporting enabled: a press result for a press, a motion result
for a motion, nothing for anything else. -/
def press_mode_text (print_window : Bool) (event : xcb_generic_event) : String :=
  if event_code event = XCB_BUTTON_PRESS then press_text print_window event
  else if event_code event = XCB_MOTION_NOTIFY then motion_text print_window event
  else ""

/-- The texts of a list of delivered events, in order. -/
def press_mode_texts (print_window : Bool) : List xcb_generic_event → String
  | [] => ""
  | event :: rest => press_mode_text print_window event ++ press_mode_texts print_window rest

/-- What the release branch writes for a click record, by output type. -/
def release_text (output_type : OutputType) (print_window : Bool) (c : click_info) : String :=
  match output_type with
  | OUTPUT_PRESS => ""
  | OUTPUT_RELEASE =>
    point_line c.release_x c.release_y ++
      (if print_window then window_line c.release_window else "")
  | OUTPUT_GEOMETRY =>
    geometry_line c ++ (if print_window then window_line c.release_window else "")
  | OUTPUT_JSON => click_json_line c

/-- What one delivered event that is not a release writes on the result
channel outside PressOnly mode, under the options of `s`: a motion result for
a motion event when motion is reported, nothing otherwise. -/
def motion_report (s : State) (event : xcb_generic_event) : String :=
  if event_code event = XCB_MOTION_NOTIFY ∧ s.report_motion = true then
    (if s.output_type = OUTPUT_JSON then
      motion_json_line { x := event.root_x, y := event.root_y, window := event.child }
     else motion_text s.print_window event)
  else ""

/-- The motion results of a list of delivered events, in order. -/
def motion_reports (s : State) : List xcb_generic_event → String
  | [] => ""
  | event :: rest => motion_report s event ++ motion_reports s rest

/-! ## Sample inputs -/

/-- Stack contents standing for the uninitialised `click_info`. -/
def sample_stack : click_info := ⟨7, 7, 7, 7, 7, 7, 7, 7, 7, 7⟩

/-- A delivered event. -/
def delivered (response_type : Nat) (x y : Int) (child : Nat) : Option xcb_generic_event :=
  some ⟨response_type, x, y, child⟩

/-- An execution with a reachable server, root window 99, cursor 5 and a
successful grab reply. -/
def sample_env (args : List String) (events : List (Option xcb_generic_event)) : Env :=
  { argv0 := "xpromptpoint"
    args := args
    connection_error := false
    root := 99
    cursor_context := some 5
    grab_reply := some XCB_GRAB_STATUS_SUCCESS
    events := events
    stack_click := sample_stack }

/-- An execution in which the server answers the pointer grab with a status. -/
def refused_env (status : Nat) (events : List (Option xcb_generic_event)) : Env :=
  { sample_env ["-G"] events with grab_reply := some status }

/-! # Theorems -/

theorem maybe_print_window_eq (w : Nat) (s : State) :
    maybe_print_window w s = printf s (if s.print_window then window_line w else "") := by
  unfold maybe_print_window
  cases h : s.print_window
  · simp [printf]
  · simp

theorem on_press_eq (e : xcb_generic_event) (s : State) :
    on_press e s =
      { s with
        click := { s.click with press_window := e.child, press_x := e.root_x,
                                press_y := e.root_y, min_x := e.root_x, min_y := e.root_y }
        out := if s.output_type = OUTPUT_PRESS then s.out ++ press_text s.print_window e else s.out
        running := if s.output_type = OUTPUT_PRESS then s.report_motion else s.running } := by
  unfold on_press
  by_cases h : s.output_type = OUTPUT_PRESS
  · simp [h, print_click_press, maybe_print_window_eq, printf, press_text, String.append_assoc]
  · simp [h]

/-- The text the release branch writes, by output type. -/
theorem on_release_eq (e : xcb_generic_event) (s : State) :
    on_release e s =
      { s with
        click := release_click e s.click
        out := s.out ++
          (match s.output_type with
            | OUTPUT_PRESS => ""
            | OUTPUT_RELEASE =>
              point_line e.root_x e.root_y ++ (if s.print_window then window_line e.child else "")
            | OUTPUT_GEOMETRY =>
              geometry_line (release_click e s.click) ++
                (if s.print_window then window_line e.child else "")
            | OUTPUT_JSON => click_json_line (release_click e s.click))
        running := false } := by
  have hw : (release_click e s.click).release_window = e.child := by
    simp only [release_click]; split <;> split <;> rfl
  have hx : (release_click e s.click).release_x = e.root_x := by
    simp only [release_click]; split <;> split <;> rfl
  have hy : (release_click e s.click).release_y = e.root_y := by
    simp only [release_click]; split <;> split <;> rfl
  unfold on_release
  cases h : s.output_type <;>
    simp [h, print_click_release, print_click_geometry, print_click_json, maybe_print_window_eq,
      printf, String.append_assoc, hw, hx, hy]

theorem on_motion_eq (e : xcb_generic_event) (s : State) :
    on_motion e s =
      { s with
        out := s.out ++
          (if s.report_motion = true then
            (if s.output_type = OUTPUT_JSON then
              motion_json_line { x := e.root_x, y := e.root_y, window := e.child }
             else motion_text s.print_window e)
           else "") } := by
  unfold on_motion
  by_cases hm : s.report_motion = true
  · by_cases hj : s.output_type = OUTPUT_JSON
    · simp [hm, hj, print_motion_json, printf]
    · simp [hm, hj, print_motion, maybe_print_window_eq, printf, motion_text, String.append_assoc]
  · cases s
    simp_all

/-! ## The loop on a list of deliveries -/

theorem event_loop_stopped (evs : List (Option xcb_generic_event)) (s : State)
    (h : s.running = false) : event_loop evs s = (s, evs, LoopEnd.finished) := by
  cases evs <;> simp [event_loop, h]

theorem event_loop_cons (e : xcb_generic_event) (rest : List (Option xcb_generic_event))
    (s : State) (h : s.running = true) :
    event_loop (some e :: rest) s = event_loop rest (loop_iteration e s) := by
  simp [event_loop, h, loop_iteration]

theorem event_loop_null (rest : List (Option xcb_generic_event)) (s : State)
    (h : s.running = true) :
    event_loop (none :: rest) s =
      (eprintf { xcb (xcb s XcbCall.allow_events) XcbCall.flush with running := false }
        "No event.\n", rest, LoopEnd.crashed) := by
  simp [event_loop, h]

theorem event_loop_waiting (s : State) (h : s.running = true) :
    event_loop [] s =
      (xcb (xcb s XcbCall.allow_events) XcbCall.flush, [], LoopEnd.blocked) := by
  simp [event_loop, h]

/-- A prefix of deliveries along which an invariant that implies `running`
is kept is consumed one iteration at a time. -/
theorem event_loop_along (P : State → Prop) (Q : xcb_generic_event → Prop)
    (hrun : ∀ s, P s → s.running = true)
    (hstep : ∀ s e, P s → Q e → P (loop_iteration e s))
    (evs : List xcb_generic_event) (hQ : ∀ e ∈ evs, Q e) (s : State) (hP : P s)
    (tail : List (Option xcb_generic_event)) :
    event_loop (evs.map some ++ tail) s = event_loop tail (loop_iterations evs s) ∧
      P (loop_iterations evs s) := by
  induction evs generalizing s with
  | nil => exact ⟨rfl, hP⟩
  | cons e rest ih =>
    have he : Q e := hQ e (List.mem_cons_self e rest)
    have hrest : ∀ x ∈ rest, Q x := fun x hx => hQ x (List.mem_cons_of_mem e hx)
    have hnext := ih hrest (loop_iteration e s) (hstep s e hP he)
    refine ⟨?_, hnext.2⟩
    show event_loop (some e :: (rest.map some ++ tail)) s = _
    rw [event_loop_cons e _ s (hrun s hP)]
    exact hnext.1

/-! ## One iteration, by kind of event -/

theorem loop_iteration_press (e : xcb_generic_event) (s : State)
    (h : event_code e = XCB_BUTTON_PRESS) :
    loop_iteration e s =
      { s with
        calls := s.calls ++ [XcbCall.allow_events, XcbCall.flush]
        click := { s.click with press_window := e.child, press_x := e.root_x,
                                press_y := e.root_y, min_x := e.root_x, min_y := e.root_y }
        out := if s.output_type = OUTPUT_PRESS then s.out ++ press_text s.print_window e else s.out
        running := if s.output_type = OUTPUT_PRESS then s.report_motion else s.running } := by
  unfold loop_iteration handle_event
  rw [if_pos h, on_press_eq]
  simp [xcb]

theorem loop_iteration_release (e : xcb_generic_event) (s : State)
    (h : event_code e = XCB_BUTTON_RELEASE) :
    loop_iteration e s =
      { s with
        calls := s.calls ++ [XcbCall.allow_events, XcbCall.flush]
        click := release_click e s.click
        out := s.out ++
          (match s.output_type with
            | OUTPUT_PRESS => ""
            | OUTPUT_RELEASE =>
              point_line e.root_x e.root_y ++ (if s.print_window then window_line e.child else "")
            | OUTPUT_GEOMETRY =>
              geometry_line (release_click e s.click) ++
                (if s.print_window then window_line e.child else "")
            | OUTPUT_JSON => click_json_line (release_click e s.click))
        running := false } := by
  have hne : event_code e ≠ XCB_BUTTON_PRESS := by rw [h]; decide
  unfold loop_iteration handle_event
  rw [if_neg hne, if_pos h, on_release_eq]
  simp [xcb]

theorem loop_iteration_motion (e : xcb_generic_event) (s : State)
    (h : event_code e = XCB_MOTION_NOTIFY) :
    loop_iteration e s =
      { s with
        calls := s.calls ++ [XcbCall.allow_events, XcbCall.flush]
        out := s.out ++
          (if s.report_motion = true then
            (if s.output_type = OUTPUT_JSON then
              motion_json_line { x := e.root_x, y := e.root_y, window := e.child }
             else motion_text s.print_window e)
           else "") } := by
  have hp : event_code e ≠ XCB_BUTTON_PRESS := by rw [h]; decide
  have hr : event_code e ≠ XCB_BUTTON_RELEASE := by rw [h]; decide
  unfold loop_iteration handle_event
  rw [if_neg hp, if_neg hr, if_pos h, on_motion_eq]
  simp [xcb]

theorem loop_iteration_other (e : xcb_generic_event) (s : State)
    (hp : event_code e ≠ XCB_BUTTON_PRESS) (hr : event_code e ≠ XCB_BUTTON_RELEASE)
    (hm : event_code e ≠ XCB_MOTION_NOTIFY) :
    loop_iteration e s =
      { s with
        calls := s.calls ++ [XcbCall.allow_events, XcbCall.flush]
        err := s.err ++ ("Event " ++ fmt_i (event_code e) ++ "\n") } := by
  unfold loop_iteration handle_event
  rw [if_neg hp, if_neg hr, if_neg hm]
  simp [xcb, eprintf]

/-- An event that is not a button event changes neither the click record nor
`running` nor the options. -/
theorem loop_iteration_not_button (e : xcb_generic_event) (s : State) (h : not_button e) :
    (loop_iteration e s).click = s.click ∧ (loop_iteration e s).running = s.running ∧
    (loop_iteration e s).output_type = s.output_type ∧
    (loop_iteration e s).report_motion = s.report_motion ∧
    (loop_iteration e s).print_window = s.print_window := by
  by_cases hm : event_code e = XCB_MOTION_NOTIFY
  · rw [loop_iteration_motion e s hm]; simp
  · rw [loop_iteration_other e s h.1 h.2 hm]; simp

/-- A silent event moreover leaves the result channel alone. -/
theorem loop_iteration_silent (e : xcb_generic_event) (s : State)
    (h : silent s.report_motion e) : (loop_iteration e s).out = s.out := by
  by_cases hm : event_code e = XCB_MOTION_NOTIFY
  · have hrm : s.report_motion = false := by
      cases hb : s.report_motion
      · rfl
      · exact absurd hm (h.2 hb)
    rw [loop_iteration_motion e s hm]; simp [hrm]
  · rw [loop_iteration_other e s h.1.1 h.1.2 hm]

theorem loop_iterations_not_button (evs : List xcb_generic_event)
    (h : ∀ e ∈ evs, not_button e) (s : State) :
    (loop_iterations evs s).click = s.click ∧ (loop_iterations evs s).running = s.running ∧
    (loop_iterations evs s).output_type = s.output_type ∧
    (loop_iterations evs s).report_motion = s.report_motion ∧
    (loop_iterations evs s).print_window = s.print_window := by
  induction evs generalizing s with
  | nil => exact ⟨rfl, rfl, rfl, rfl, rfl⟩
  | cons e rest ih =>
    have he := loop_iteration_not_button e s (h e (List.mem_cons_self e rest))
    have hr := ih (fun x hx => h x (List.mem_cons_of_mem e hx)) (loop_iteration e s)
    simp only [loop_iterations]
    rw [hr.1, hr.2.1, hr.2.2.1, hr.2.2.2.1, hr.2.2.2.2]
    exact he

theorem loop_iterations_silent (evs : List xcb_generic_event) (s : State)
    (h : ∀ e ∈ evs, silent s.report_motion e) : (loop_iterations evs s).out = s.out := by
  induction evs generalizing s with
  | nil => rfl
  | cons e rest ih =>
    have he := h e (List.mem_cons_self e rest)
    have hf := loop_iteration_not_button e s he.1
    have hr := ih (loop_iteration e s) (fun x hx => by
      rw [hf.2.2.2.1]; exact h x (List.mem_cons_of_mem e hx))
    show (loop_iterations rest (loop_iteration e s)).out = s.out
    rw [hr, loop_iteration_silent e s he]

/-! ## The rectangle of a click -/

theorem span_eq_abs (p r : Int) (hp : InInt16 p) (hr : InInt16 r) :
    wrap32 (wrap32 (p + r) - wrap32 (2 * (if p > r then r else p))) = |p - r| := by
  unfold InInt16 at hp hr
  unfold wrap32
  split
  · rw [abs_of_pos (by omega)]; omega
  · rw [abs_of_nonpos (by omega)]; omega

theorem anchor_eq_min (p r : Int) : (if p > r then r else p) = min p r := by
  split
  · rw [min_eq_right (by omega)]
  · rw [min_eq_left (by omega)]

/-- The record computed by the release branch from a record whose press fields
and minimum seed were set by a press at `(px, py)` on window `w`. -/
theorem release_click_of_pressed (rel : xcb_generic_event) (c : click_info) (px py : Int)
    (w : Nat) (hpx : InInt16 px) (hpy : InInt16 py)
    (hrx : InInt16 rel.root_x) (hry : InInt16 rel.root_y) :
    release_click rel
        { c with press_window := w, press_x := px, press_y := py, min_x := px, min_y := py } =
      { press_x := px, press_y := py, release_x := rel.root_x, release_y := rel.root_y,
        min_x := min px rel.root_x, min_y := min py rel.root_y,
        width := |px - rel.root_x|, height := |py - rel.root_y|,
        press_window := w, release_window := rel.child } := by
  have hw := span_eq_abs px rel.root_x hpx hrx
  have hh := span_eq_abs py rel.root_y hpy hry
  have hx := anchor_eq_min px rel.root_x
  have hy := anchor_eq_min py rel.root_y
  simp only [release_click]
  by_cases ha : px > rel.root_x <;> by_cases hb : py > rel.root_y <;>
    simp only [ha, hb, if_true, if_false] at hw hh hx hy ⊢ <;>
    rw [hw, hh, ← hx, ← hy]

/-- C1. For a press at `P`, then events that are not button events, then a
release at `R` (coordinates in the `int16_t` range of the protocol), the click
record after the release iteration has `min_x = min(px, rx)`,
`min_y = min(py, ry)`, `width = |px - rx|` and `height = |py - ry|`, so width
and height are non-negative whatever the drag direction.  This holds from
every state, in every output mode. -/
theorem click_rectangle_of_press_release (s : State) (press release : xcb_generic_event)
    (mids : List xcb_generic_event)
    (hpress : event_code press = XCB_BUTTON_PRESS)
    (hrelease : event_code release = XCB_BUTTON_RELEASE)
    (hmids : ∀ e ∈ mids, not_button e)
    (hpx : InInt16 press.root_x) (hpy : InInt16 press.root_y)
    (hrx : InInt16 release.root_x) (hry : InInt16 release.root_y) :
    let c := (loop_iteration release (loop_iterations mids (loop_iteration press s))).click
    c.min_x = min press.root_x release.root_x ∧
    c.min_y = min press.root_y release.root_y ∧
    c.width = |press.root_x - release.root_x| ∧
    c.height = |press.root_y - release.root_y| ∧
    0 ≤ c.width ∧ 0 ≤ c.height := by
  intro c
  have hc : c = release_click release (loop_iteration press s).click := by
    show (loop_iteration release _).click = _
    rw [loop_iteration_release release _ hrelease]
    show release_click release (loop_iterations mids (loop_iteration press s)).click = _
    rw [(loop_iterations_not_button mids hmids _).1]
  rw [loop_iteration_press press s hpress] at hc
  simp only [] at hc
  rw [release_click_of_pressed release _ press.root_x press.root_y press.child
    hpx hpy hrx hry] at hc
  rw [hc]
  exact ⟨rfl, rfl, rfl, rfl, abs_nonneg _, abs_nonneg _⟩

theorem click_rectangle_of_press_release_witness :
    let c := (loop_iteration ⟨5, 10, 60, 33⟩
      (loop_iterations [⟨6, 50, 50, 0⟩] (loop_iteration ⟨4, 90, 5, 32⟩
        (initial_state sample_stack)))).click
    c.min_x = min 90 10 ∧ c.min_y = min 5 60 ∧ c.width = |(90 : Int) - 10| ∧
    c.height = |(5 : Int) - 60| ∧ 0 ≤ c.width ∧ 0 ≤ c.height :=
  click_rectangle_of_press_release (initial_state sample_stack) ⟨4, 90, 5, 32⟩ ⟨5, 10, 60, 33⟩
    [⟨6, 50, 50, 0⟩] (by decide) (by decide) (by decide) (by decide) (by decide) (by decide)
    (by decide)

/-! ## Teardown on a signal -/

/-- C2. Whenever `screen` is set (it is from line 218 on, hence at any point
after the grab was acquired), the signal handler appends to the call trace the
ungrab request selected by `grab_pointer` (ungrab-pointer for the exclusive
grab, otherwise ungrab-button on the root) followed by a flush, writes nothing
to the result channel and then exits the process. -/
theorem sig_handler_ungrabs_then_exits (s : State) (root : Nat) (h : s.screen = some root) :
    (s.grab_pointer = true →
      (sig_handler s).1.calls = s.calls ++ [XcbCall.ungrab_pointer, XcbCall.flush]) ∧
    (s.grab_pointer = false →
      (sig_handler s).1.calls = s.calls ++ [XcbCall.ungrab_button root, XcbCall.flush]) ∧
    (sig_handler s).1.out = s.out ∧
    (sig_handler s).2 = Outcome.exited 0 := by
  refine ⟨?_, ?_, ?_, rfl⟩
  · intro hg
    simp [sig_handler, h, xcb, ungrab_call, hg]
  · intro hg
    simp [sig_handler, h, xcb, ungrab_call, hg]
  · simp [sig_handler, h, xcb]

theorem sig_handler_ungrabs_then_exits_witness :
    (main (sample_env ["-G"] [delivered 4 10 50 32])).outcome = Outcome.blocked ∧
    (main (sample_env ["-G"] [delivered 4 10 50 32])).state.screen = some 99 ∧
    (((main (sample_env ["-G"] [delivered 4 10 50 32])).state.grab_pointer = true →
      (sig_handler (main (sample_env ["-G"] [delivered 4 10 50 32])).state).1.calls =
        (main (sample_env ["-G"] [delivered 4 10 50 32])).state.calls ++
          [XcbCall.ungrab_pointer, XcbCall.flush]) ∧
    ((main (sample_env ["-G"] [delivered 4 10 50 32])).state.grab_pointer = false →
      (sig_handler (main (sample_env ["-G"] [delivered 4 10 50 32])).state).1.calls =
        (main (sample_env ["-G"] [delivered 4 10 50 32])).state.calls ++
          [XcbCall.ungrab_button 99, XcbCall.flush]) ∧
    (sig_handler (main (sample_env ["-G"] [delivered 4 10 50 32])).state).1.out =
      (main (sample_env ["-G"] [delivered 4 10 50 32])).state.out ∧
    (sig_handler (main (sample_env ["-G"] [delivered 4 10 50 32])).state).2 = Outcome.exited 0) :=
  ⟨by decide, by decide,
    sig_handler_ungrabs_then_exits (main (sample_env ["-G"] [delivered 4 10 50 32])).state 99
      (by decide)⟩

/-! ## Argument parsing leaves the traces and the process variables alone -/

theorem short_option_same_process (ch : Char) (s t : State) (h : short_option ch s = some t) :
    same_process s t := by
  unfold short_option at h
  split_ifs at h <;> cases h <;> exact ⟨rfl, rfl, rfl, rfl, rfl, rfl⟩

theorem long_option_same_process (name : String) (s t : State)
    (h : long_option name s = some t) : same_process s t := by
  unfold long_option at h
  split_ifs at h <;> cases h <;> exact ⟨rfl, rfl, rfl, rfl, rfl, rfl⟩

theorem same_process_trans {s t u : State} (h1 : same_process s t) (h2 : same_process t u) :
    same_process s u := by
  unfold same_process at h1 h2 ⊢
  rw [h2.1, h2.2.1, h2.2.2.1, h2.2.2.2.1, h2.2.2.2.2.1, h2.2.2.2.2.2]
  exact h1

theorem parse_short_same_process (chars : List Char) (s t : State)
    (h : parse_short chars s = Except.ok t) : same_process s t := by
  induction chars generalizing s with
  | nil =>
    simp only [parse_short] at h
    cases h
    exact ⟨rfl, rfl, rfl, rfl, rfl, rfl⟩
  | cons ch rest ih =>
    simp only [parse_short] at h
    cases hs : short_option ch s with
    | none => rw [hs] at h; cases h
    | some s1 =>
      rw [hs] at h
      exact same_process_trans (short_option_same_process ch s s1 hs) (ih s1 h)

theorem parse_arg_same_process (arg : String) (s t : State)
    (h : parse_arg arg s = Except.ok t) : same_process s t := by
  unfold parse_arg at h
  split at h
  · rename_i name _
    cases hl : long_option (String.mk name) s with
    | none => rw [hl] at h; cases h
    | some s1 =>
      rw [hl] at h
      cases h
      exact long_option_same_process _ s _ hl
  · exact parse_short_same_process _ s t h
  · cases h

theorem parse_args_same_process (args : List String) (s t : State)
    (h : parse_args args s = Except.ok t) : same_process s t := by
  induction args generalizing s with
  | nil =>
    simp only [parse_args] at h
    cases h
    exact ⟨rfl, rfl, rfl, rfl, rfl, rfl⟩
  | cons arg rest ih =>
    simp only [parse_args] at h
    cases ha : parse_arg arg s with
    | error e => rw [ha] at h; cases h
    | ok s1 =>
      rw [ha] at h
      exact same_process_trans (parse_arg_same_process arg s s1 ha) (ih s1 h)

/-! ## A refused pointer grab -/

/-- The grab of lines 236-287 when the reply carries a non-success status. -/
theorem acquire_refused (env : Env) (s : State) (status : Nat)
    (hgrab : s.grab_pointer = true) (hreply : env.grab_reply = some status)
    (hstatus : status ≠ XCB_GRAB_STATUS_SUCCESS) :
    acquire env s =
      { s with
        running := false
        calls := s.calls ++
          [XcbCall.grab_pointer env.root (env.cursor_context.getD XCB_NONE), XcbCall.flush]
        err := s.err ++
          (if status = XCB_GRAB_STATUS_ALREADY_GRABBED then "grab pointer already_grabbed\n"
           else if status = XCB_GRAB_STATUS_FROZEN then "grab pointer frozen\n"
           else "grab pointer error\n") } := by
  unfold acquire
  simp only [hgrab, hreply, if_true]
  rw [if_neg hstatus, if_pos hstatus]
  cases env.cursor_context <;> split_ifs <;> simp [xcb, eprintf, hgrab]

/-- C3, as the code behaves.  In ExclusivePointer mode, when the server
answers the grab request with a non-success status, the event loop is skipped
(no event is fetched, no allow-events call is made) and the process exits
through the common exit path of `main`, on which the ungrab-pointer request is
issued although no grab was acquired. -/
theorem refused_grab_takes_common_exit (env : Env) (s : State) (status : Nat)
    (hparse : parse_args env.args (initial_state env.stack_click) = Except.ok s)
    (hgrab : s.grab_pointer = true) (husage : s.show_usage = false)
    (hconn : env.connection_error = false)
    (hreply : env.grab_reply = some status) (hstatus : status ≠ XCB_GRAB_STATUS_SUCCESS) :
    (∃ code, (main env).outcome = Outcome.exited code) ∧
    (main env).pending = env.events ∧
    XcbCall.allow_events ∉ (main env).state.calls ∧
    XcbCall.ungrab_pointer ∈ (main env).state.calls := by
  obtain ⟨-, -, -, -, -, hcalls⟩ := parse_args_same_process _ _ _ hparse
  have hcalls0 : s.calls = [] := hcalls
  have hacq := acquire_refused env { xcb s XcbCall.connect with
      screen := some env.root, running := true } status hgrab hreply hstatus
  have hmain : main env =
      { state := release_and_return env.root (acquire env { xcb s XcbCall.connect with
          screen := some env.root, running := true })
        pending := env.events
        outcome := Outcome.exited 0 } := by
    unfold main
    rw [hparse]
    simp only [husage, hconn, Bool.false_eq_true, if_false]
    rw [event_loop_stopped _ _ (by rw [hacq])]
  rw [hmain, hacq]
  refine ⟨⟨0, rfl⟩, rfl, ?_, ?_⟩ <;>
    simp [release_and_return, xcb, hgrab, ungrab_call, hcalls0]

theorem refused_grab_takes_common_exit_witness :
    (∃ code, (main (refused_env XCB_GRAB_STATUS_FROZEN [delivered 4 1 2 3])).outcome =
      Outcome.exited code) ∧
    (main (refused_env XCB_GRAB_STATUS_FROZEN [delivered 4 1 2 3])).pending =
      (refused_env XCB_GRAB_STATUS_FROZEN [delivered 4 1 2 3]).events ∧
    XcbCall.allow_events ∉
      (main (refused_env XCB_GRAB_STATUS_FROZEN [delivered 4 1 2 3])).state.calls ∧
    XcbCall.ungrab_pointer ∈
      (main (refused_env XCB_GRAB_STATUS_FROZEN [delivered 4 1 2 3])).state.calls :=
  refused_grab_takes_common_exit (refused_env XCB_GRAB_STATUS_FROZEN [delivered 4 1 2 3])
    { initial_state sample_stack with grab_pointer := true } XCB_GRAB_STATUS_FROZEN
    rfl rfl rfl rfl rfl (by decide)

/-- C3 fails as stated: with `-G` and the grab answered AlreadyGrabbed, the
process exits with status 0 and the ungrab-pointer request is issued, and the
two delivered events are never fetched. -/
theorem refused_grab_exits_zero_after_ungrab :
    (main (refused_env XCB_GRAB_STATUS_ALREADY_GRABBED
      [delivered 4 10 50 32, delivered 5 90 5 32])).outcome = Outcome.exited 0 ∧
    (main (refused_env XCB_GRAB_STATUS_ALREADY_GRABBED
      [delivered 4 10 50 32, delivered 5 90 5 32])).state.calls =
      [XcbCall.connect, XcbCall.grab_pointer 99 5, XcbCall.flush, XcbCall.ungrab_pointer] ∧
    (main (refused_env XCB_GRAB_STATUS_ALREADY_GRABBED
      [delivered 4 10 50 32, delivered 5 90 5 32])).state.err =
      "grab pointer already_grabbed\n" := by
  decide

/-! ## PressOnly output -/

/-- In PressOnly mode with motion reported, an iteration on an event that is
not a release keeps the loop running and keeps the options. -/
theorem press_motion_invariant (w : Bool) (s : State) (e : xcb_generic_event)
    (hs : s.running = true ∧ s.output_type = OUTPUT_PRESS ∧ s.report_motion = true ∧
      s.print_window = w)
    (he : event_code e ≠ XCB_BUTTON_RELEASE) :
    (loop_iteration e s).running = true ∧ (loop_iteration e s).output_type = OUTPUT_PRESS ∧
      (loop_iteration e s).report_motion = true ∧ (loop_iteration e s).print_window = w := by
  obtain ⟨h1, h2, h3, h4⟩ := hs
  by_cases hp : event_code e = XCB_BUTTON_PRESS
  · rw [loop_iteration_press e s hp]
    simp [h1, h2, h3, h4]
  · have hf := loop_iteration_not_button e s ⟨hp, he⟩
    exact ⟨hf.2.1.trans h1, hf.2.2.1.trans h2, hf.2.2.2.1.trans h3, hf.2.2.2.2.trans h4⟩

/-- C4, as the code behaves.  In PressOnly mode with motion reporting enabled,
along any stream of delivered events without a release (it may hold the press,
motions, further presses, other events) the loop is still running, blocked in
the wait for the next event; a motion event that arrives next is reported; a
release that arrives next writes nothing to the result channel but ends the
loop, and the events after it are not fetched. -/
theorem press_mode_with_motion_runs_until_release (s : State)
    (hrun : s.running = true) (hmode : s.output_type = OUTPUT_PRESS)
    (hmotion : s.report_motion = true)
    (evs : List xcb_generic_event) (hevs : ∀ e ∈ evs, event_code e ≠ XCB_BUTTON_RELEASE)
    (m release : xcb_generic_event)
    (hm : event_code m = XCB_MOTION_NOTIFY) (hrelease : event_code release = XCB_BUTTON_RELEASE)
    (rest : List (Option xcb_generic_event)) :
    (event_loop (evs.map some) s).2 = ([], LoopEnd.blocked) ∧
    (event_loop (evs.map some ++ [some m]) s).2 = ([], LoopEnd.blocked) ∧
    (event_loop (evs.map some ++ [some m]) s).1.out =
      (event_loop (evs.map some) s).1.out ++ motion_text s.print_window m ∧
    (event_loop (evs.map some ++ some release :: rest) s).2 = (rest, LoopEnd.finished) ∧
    (event_loop (evs.map some ++ some release :: rest) s).1.out =
      (event_loop (evs.map some) s).1.out := by
  have hpre := fun tail => event_loop_along
    (fun t => t.running = true ∧ t.output_type = OUTPUT_PRESS ∧ t.report_motion = true ∧
      t.print_window = s.print_window)
    (fun e => event_code e ≠ XCB_BUTTON_RELEASE)
    (fun t ht => ht.1) (fun t e ht he => press_motion_invariant s.print_window t e ht he)
    evs hevs s ⟨hrun, hmode, hmotion, rfl⟩ tail
  obtain ⟨h0, hrun1, hmode1, hmotion1, hwin1⟩ := hpre []
  rw [List.append_nil] at h0
  have hm1 := loop_iteration_motion m (loop_iterations evs s) hm
  have hr1 := loop_iteration_release release (loop_iterations evs s) hrelease
  have hmrun : (loop_iteration m (loop_iterations evs s)).running = true := by
    rw [hm1]; exact hrun1
  have hrstop : (loop_iteration release (loop_iterations evs s)).running = false := by
    rw [hr1]
  rw [h0, (hpre [some m]).1, (hpre (some release :: rest)).1, event_loop_waiting _ hrun1,
    event_loop_cons _ _ _ hrun1, event_loop_cons _ _ _ hrun1, event_loop_waiting _ hmrun,
    event_loop_stopped _ _ hrstop]
  refine ⟨rfl, rfl, ?_, rfl, ?_⟩
  · rw [hm1]
    simp [xcb, hmotion1, hmode1, hwin1]
  · rw [hr1]
    simp [xcb, hmode1]

theorem press_mode_with_motion_runs_until_release_witness :
    (event_loop ([(⟨4, 10, 50, 32⟩ : xcb_generic_event), ⟨6, 11, 51, 32⟩, ⟨4, 12, 52, 32⟩].map some)
      { initial_state sample_stack with
        running := true, output_type := OUTPUT_PRESS, report_motion := true }).2 =
      ([], LoopEnd.blocked) ∧
    (event_loop ([(⟨4, 10, 50, 32⟩ : xcb_generic_event), ⟨6, 11, 51, 32⟩, ⟨4, 12, 52, 32⟩].map some
        ++ [some ⟨6, 13, 53, 33⟩])
      { initial_state sample_stack with
        running := true, output_type := OUTPUT_PRESS, report_motion := true }).2 =
      ([], LoopEnd.blocked) ∧
    (event_loop ([(⟨4, 10, 50, 32⟩ : xcb_generic_event), ⟨6, 11, 51, 32⟩, ⟨4, 12, 52, 32⟩].map some
        ++ [some ⟨6, 13, 53, 33⟩])
      { initial_state sample_stack with
        running := true, output_type := OUTPUT_PRESS, report_motion := true }).1.out =
      (event_loop ([(⟨4, 10, 50, 32⟩ : xcb_generic_event), ⟨6, 11, 51, 32⟩, ⟨4, 12, 52, 32⟩].map some)
        { initial_state sample_stack with
          running := true, output_type := OUTPUT_PRESS, report_motion := true }).1.out ++
        motion_text false ⟨6, 13, 53, 33⟩ ∧
    (event_loop ([(⟨4, 10, 50, 32⟩ : xcb_generic_event), ⟨6, 11, 51, 32⟩, ⟨4, 12, 52, 32⟩].map some
        ++ some ⟨5, 90, 5, 34⟩ :: [some ⟨6, 14, 54, 35⟩])
      { initial_state sample_stack with
        running := true, output_type := OUTPUT_PRESS, report_motion := true }).2 =
      ([some ⟨6, 14, 54, 35⟩], LoopEnd.finished) ∧
    (event_loop ([(⟨4, 10, 50, 32⟩ : xcb_generic_event), ⟨6, 11, 51, 32⟩, ⟨4, 12, 52, 32⟩].map some
        ++ some ⟨5, 90, 5, 34⟩ :: [some ⟨6, 14, 54, 35⟩])
      { initial_state sample_stack with
        running := true, output_type := OUTPUT_PRESS, report_motion := true }).1.out =
      (event_loop ([(⟨4, 10, 50, 32⟩ : xcb_generic_event), ⟨6, 11, 51, 32⟩, ⟨4, 12, 52, 32⟩].map some)
        { initial_state sample_stack with
          running := true, output_type := OUTPUT_PRESS, report_motion := true }).1.out :=
  press_mode_with_motion_runs_until_release
    { initial_state sample_stack with
      running := true, output_type := OUTPUT_PRESS, report_motion := true }
    rfl rfl rfl [⟨4, 10, 50, 32⟩, ⟨6, 11, 51, 32⟩, ⟨4, 12, 52, 32⟩] (by decide)
    ⟨6, 13, 53, 33⟩ ⟨5, 90, 5, 34⟩ (by decide) (by decide) [some ⟨6, 14, 54, 35⟩]

/-- C4 fails as stated: with `-p -m`, after the press at (10,50) a release
ends the loop and the process exits with the later motion event unfetched
and unreported. -/
theorem press_mode_with_motion_stops_at_release :
    (main (sample_env ["-p", "-m"]
      [delivered 4 10 50 32, delivered 5 90 5 32, delivered 6 20 20 32])).outcome =
      Outcome.exited 0 ∧
    (main (sample_env ["-p", "-m"]
      [delivered 4 10 50 32, delivered 5 90 5 32, delivered 6 20 20 32])).pending =
      [delivered 6 20 20 32] ∧
    (main (sample_env ["-p", "-m"]
      [delivered 4 10 50 32, delivered 5 90 5 32, delivered 6 20 20 32])).state.out =
      "10 50\n" := by
  decide

/-- C5. In PressOnly mode with motion reporting disabled, for a stream whose
first button event is a press at `(x, y)`, the loop fetches the events up to
and including that press and stops, leaving every later event unfetched; it
writes exactly the line `x y`, followed by the window line of the press
window when window annotation was requested. -/
theorem press_mode_stops_at_first_press (s : State)
    (hrun : s.running = true) (hmode : s.output_type = OUTPUT_PRESS)
    (hmotion : s.report_motion = false)
    (pre : List xcb_generic_event) (hpre : ∀ e ∈ pre, not_button e)
    (press : xcb_generic_event) (hpress : event_code press = XCB_BUTTON_PRESS)
    (rest : List (Option xcb_generic_event)) :
    (event_loop (pre.map some ++ some press :: rest) s).2 = (rest, LoopEnd.finished) ∧
    (event_loop (pre.map some ++ some press :: rest) s).1.out =
      s.out ++ (fmt_i press.root_x ++ " " ++ fmt_i press.root_y ++ "\n" ++
        (if s.print_window then "window 0x" ++ fmt_X press.child ++ "\n" else "")) := by
  have hstep := event_loop_along
    (fun t => t.running = true ∧ t.output_type = OUTPUT_PRESS ∧ t.report_motion = false ∧
      t.print_window = s.print_window ∧ t.out = s.out)
    not_button (fun t ht => ht.1)
    (fun t e ht he => by
      have hf := loop_iteration_not_button e t he
      have ho := loop_iteration_silent e t ⟨he, by rw [ht.2.2.1]; intro h; cases h⟩
      exact ⟨hf.2.1.trans ht.1, hf.2.2.1.trans ht.2.1, hf.2.2.2.1.trans ht.2.2.1,
        hf.2.2.2.2.trans ht.2.2.2.1, ho.trans ht.2.2.2.2⟩)
    pre hpre s ⟨hrun, hmode, hmotion, rfl, rfl⟩ (some press :: rest)
  obtain ⟨h0, hrun1, hmode1, hmotion1, hwin1, hout1⟩ := hstep
  have hp1 := loop_iteration_press press (loop_iterations pre s) hpress
  have hstop : (loop_iteration press (loop_iterations pre s)).running = false := by
    rw [hp1]; simp [hmode1, hmotion1]
  rw [h0, event_loop_cons _ _ _ hrun1, event_loop_stopped _ _ hstop]
  refine ⟨rfl, ?_⟩
  rw [hp1]
  simp [hmode1, hwin1, hout1, press_text, point_line, window_line]

theorem press_mode_stops_at_first_press_witness :
    (event_loop ([(⟨6, 1, 2, 3⟩ : xcb_generic_event), ⟨2, 0, 0, 0⟩].map some ++
        some ⟨4, 10, 50, 32⟩ :: [delivered 5 90 5 32])
      { initial_state sample_stack with
        running := true, output_type := OUTPUT_PRESS, print_window := true }).2 =
      ([delivered 5 90 5 32], LoopEnd.finished) ∧
    (event_loop ([(⟨6, 1, 2, 3⟩ : xcb_generic_event), ⟨2, 0, 0, 0⟩].map some ++
        some ⟨4, 10, 50, 32⟩ :: [delivered 5 90 5 32])
      { initial_state sample_stack with
        running := true, output_type := OUTPUT_PRESS, print_window := true }).1.out =
      "" ++ (fmt_i 10 ++ " " ++ fmt_i 50 ++ "\n" ++
        (if true then "window 0x" ++ fmt_X 32 ++ "\n" else "")) :=
  press_mode_stops_at_first_press
    { initial_state sample_stack with
      running := true, output_type := OUTPUT_PRESS, print_window := true }
    rfl rfl rfl [⟨6, 1, 2, 3⟩, ⟨2, 0, 0, 0⟩] (by decide) ⟨4, 10, 50, 32⟩ (by decide)
    [delivered 5 90 5 32]

/-! ## A press, a drag and a release in the release, geometry and JSON modes -/

/-- Outside PressOnly mode, a press, then silent events, then a release: the
loop fetches exactly these events and stops; nothing is written before the
release iteration, which runs on the record seeded by the press. -/
theorem event_loop_press_release (s : State)
    (hrun : s.running = true) (hmode : s.output_type ≠ OUTPUT_PRESS)
    (press release : xcb_generic_event) (mids : List xcb_generic_event)
    (hpress : event_code press = XCB_BUTTON_PRESS)
    (hrelease : event_code release = XCB_BUTTON_RELEASE)
    (hmids : ∀ e ∈ mids, silent s.report_motion e)
    (rest : List (Option xcb_generic_event)) :
    ∃ t : State,
      event_loop (some press :: (mids.map some ++ some release :: rest)) s =
        (loop_iteration release t, rest, LoopEnd.finished) ∧
      t.out = s.out ∧ t.output_type = s.output_type ∧ t.print_window = s.print_window ∧
      t.click = { s.click with press_window := press.child, press_x := press.root_x,
                               press_y := press.root_y, min_x := press.root_x,
                               min_y := press.root_y } := by
  have hp := loop_iteration_press press s hpress
  simp only [if_neg hmode] at hp
  have hstep := event_loop_along
    (fun t => t.running = true ∧ t.report_motion = s.report_motion ∧
      t.output_type = s.output_type ∧ t.print_window = s.print_window ∧
      t.out = s.out ∧ t.click = (loop_iteration press s).click)
    (silent s.report_motion) (fun t ht => ht.1)
    (fun t e ht he => by
      have hf := loop_iteration_not_button e t he.1
      have ho := loop_iteration_silent e t (by rw [ht.2.1]; exact he)
      exact ⟨hf.2.1.trans ht.1, hf.2.2.2.1.trans ht.2.1, hf.2.2.1.trans ht.2.2.1,
        hf.2.2.2.2.trans ht.2.2.2.1, ho.trans ht.2.2.2.2.1, hf.1.trans ht.2.2.2.2.2⟩)
    mids hmids (loop_iteration press s)
    (by rw [hp]; exact ⟨hrun, rfl, rfl, rfl, rfl, rfl⟩) (some release :: rest)
  obtain ⟨h0, hrun1, -, hmode1, hwin1, hout1, hclick1⟩ := hstep
  have hstop : (loop_iteration release (loop_iterations mids (loop_iteration press s))).running
      = false := by
    rw [loop_iteration_release release _ hrelease]
  refine ⟨loop_iterations mids (loop_iteration press s), ?_, hout1, hmode1, hwin1, ?_⟩
  · rw [event_loop_cons _ _ _ hrun, h0, event_loop_cons _ _ _ hrun1,
      event_loop_stopped _ _ hstop]
  · rw [hclick1, hp]

/-- C6. In Geometry mode without window annotation, a press at `(px, py)`
followed (after silent events only) by a release at `(rx, ry)`, coordinates in
the `int16_t` range of the protocol, ends the loop and writes exactly one
line `WxH+X+Y` with `W = |px - rx|`, `H = |py - ry|`, `X = min(px, rx)`,
`Y = min(py, ry)` in decimal; when press and release are at the same point the
line is `0x0+X+Y`. -/
theorem geometry_mode_line (s : State)
    (hrun : s.running = true) (hmode : s.output_type = OUTPUT_GEOMETRY)
    (hwindow : s.print_window = false)
    (press release : xcb_generic_event) (mids : List xcb_generic_event)
    (hpress : event_code press = XCB_BUTTON_PRESS)
    (hrelease : event_code release = XCB_BUTTON_RELEASE)
    (hmids : ∀ e ∈ mids, silent s.report_motion e)
    (hpx : InInt16 press.root_x) (hpy : InInt16 press.root_y)
    (hrx : InInt16 release.root_x) (hry : InInt16 release.root_y)
    (rest : List (Option xcb_generic_event)) :
    (event_loop (some press :: (mids.map some ++ some release :: rest)) s).2 =
      (rest, LoopEnd.finished) ∧
    (event_loop (some press :: (mids.map some ++ some release :: rest)) s).1.out =
      s.out ++ (fmt_i |press.root_x - release.root_x| ++ "x" ++
        fmt_i |press.root_y - release.root_y| ++ "+" ++
        fmt_i (min press.root_x release.root_x) ++ "+" ++
        fmt_i (min press.root_y release.root_y) ++ "\n") ∧
    (press.root_x = release.root_x → press.root_y = release.root_y →
      (event_loop (some press :: (mids.map some ++ some release :: rest)) s).1.out =
        s.out ++ ("0x0+" ++ fmt_i press.root_x ++ "+" ++ fmt_i press.root_y ++ "\n")) := by
  obtain ⟨t, hloop, hout, hmode1, hwin1, hclick⟩ :=
    event_loop_press_release s hrun (by rw [hmode]; decide) press release mids hpress hrelease
      hmids rest
  have hline : (loop_iteration release t).out =
      s.out ++ (fmt_i |press.root_x - release.root_x| ++ "x" ++
        fmt_i |press.root_y - release.root_y| ++ "+" ++
        fmt_i (min press.root_x release.root_x) ++ "+" ++
        fmt_i (min press.root_y release.root_y) ++ "\n") := by
    rw [loop_iteration_release release t hrelease, hclick,
      release_click_of_pressed release _ _ _ _ hpx hpy hrx hry]
    simp [hmode1, hmode, hwin1, hwindow, hout, geometry_line]
  rw [hloop]
  refine ⟨rfl, hline, ?_⟩
  intro hx hy
  show (loop_iteration release t).out = _
  rw [hline, ← hx, ← hy]
  have h0 : fmt_i 0 = "0" := by decide
  simp [h0, String.append_assoc]

theorem geometry_mode_line_witness :
    (event_loop (some ⟨4, 10, 50, 32⟩ :: (([] : List xcb_generic_event).map some ++
        some ⟨5, 90, 5, 32⟩ :: []))
      { initial_state sample_stack with running := true, output_type := OUTPUT_GEOMETRY }).2 =
      ([], LoopEnd.finished) ∧
    (event_loop (some ⟨4, 10, 50, 32⟩ :: (([] : List xcb_generic_event).map some ++
        some ⟨5, 90, 5, 32⟩ :: []))
      { initial_state sample_stack with running := true, output_type := OUTPUT_GEOMETRY }).1.out =
      "80x45+10+5\n" :=
  ⟨(geometry_mode_line
      { initial_state sample_stack with running := true, output_type := OUTPUT_GEOMETRY }
      rfl rfl rfl ⟨4, 10, 50, 32⟩ ⟨5, 90, 5, 32⟩ [] (by decide) (by decide) (by decide)
      (by decide) (by decide) (by decide) (by decide) []).1,
   (geometry_mode_line
      { initial_state sample_stack with running := true, output_type := OUTPUT_GEOMETRY }
      rfl rfl rfl ⟨4, 10, 50, 32⟩ ⟨5, 90, 5, 32⟩ [] (by decide) (by decide) (by decide)
      (by decide) (by decide) (by decide) (by decide) []).2.1.trans (by decide)⟩

/-- C8. In StructuredJson mode, a press followed (after silent events only) by
a release ends the loop and writes exactly one line, the click object, which
holds the press window and the release window as strings `0x` followed by the
identifier in hexadecimal; the window-annotation flag plays no part and no
`window` line is written. -/
theorem json_mode_click_line (s : State)
    (hrun : s.running = true) (hmode : s.output_type = OUTPUT_JSON)
    (press release : xcb_generic_event) (mids : List xcb_generic_event)
    (hpress : event_code press = XCB_BUTTON_PRESS)
    (hrelease : event_code release = XCB_BUTTON_RELEASE)
    (hmids : ∀ e ∈ mids, silent s.report_motion e)
    (hpx : InInt16 press.root_x) (hpy : InInt16 press.root_y)
    (hrx : InInt16 release.root_x) (hry : InInt16 release.root_y)
    (rest : List (Option xcb_generic_event)) :
    (event_loop (some press :: (mids.map some ++ some release :: rest)) s).2 =
      (rest, LoopEnd.finished) ∧
    (event_loop (some press :: (mids.map some ++ some release :: rest)) s).1.out =
      s.out ++ ("\x7b\"type\": \"click\", \"x\": " ++ fmt_i (min press.root_x release.root_x) ++
        ", \"y\": " ++ fmt_i (min press.root_y release.root_y) ++
        ", \"width\": " ++ fmt_i |press.root_x - release.root_x| ++
        ", \"height\": " ++ fmt_i |press.root_y - release.root_y| ++
        ", \"press\": \x7b\"window\": \"0x" ++ fmt_X press.child ++
        "\", \"x\": " ++ fmt_i press.root_x ++ ", \"y\": " ++ fmt_i press.root_y ++
        "\x7d, \"release\": \x7b\"window\": \"0x" ++ fmt_X release.child ++
        "\", \"x\": " ++ fmt_i release.root_x ++ ", \"y\": " ++ fmt_i release.root_y ++
        "\x7d\x7d\n") := by
  obtain ⟨t, hloop, hout, hmode1, hwin1, hclick⟩ :=
    event_loop_press_release s hrun (by rw [hmode]; decide) press release mids hpress hrelease
      hmids rest
  rw [hloop]
  refine ⟨rfl, ?_⟩
  show (loop_iteration release t).out = _
  rw [loop_iteration_release release t hrelease, hclick,
    release_click_of_pressed release _ _ _ _ hpx hpy hrx hry]
  simp [hmode1, hmode, hout, click_json_line]

theorem json_mode_click_line_witness :
    (event_loop (some ⟨4, 10, 50, 32⟩ :: (([⟨6, 20, 20, 40⟩] : List xcb_generic_event).map some ++
        some ⟨5, 90, 5, 47⟩ :: []))
      { initial_state sample_stack with
        running := true, output_type := OUTPUT_JSON, print_window := true }).1.out =
      "\x7b\"type\": \"click\", \"x\": 10, \"y\": 5, \"width\": 80, \"height\": 45, " ++
      "\"press\": \x7b\"window\": \"0x20\", \"x\": 10, \"y\": 50\x7d, " ++
      "\"release\": \x7b\"window\": \"0x2F\", \"x\": 90, \"y\": 5\x7d\x7d\n" :=
  (json_mode_click_line
    { initial_state sample_stack with
      running := true, output_type := OUTPUT_JSON, print_window := true }
    rfl rfl ⟨4, 10, 50, 32⟩ ⟨5, 90, 5, 47⟩ [⟨6, 20, 20, 40⟩] (by decide) (by decide) (by decide)
    (by decide) (by decide) (by decide) (by decide) []).2.trans (by decide)

/-! ## The end of the event stream and the normal exit -/

/-- C7, the code at the failing input.  With the default options, a press
and then `NULL` from `xcb_wait_for_event`: the iteration writes `No event.`
and goes on to read `event->response_type` through the null pointer, so the
process ends there; no ungrab request is ever issued, the exit path of lines
376-388 is not reached. -/
theorem null_event_is_dereferenced :
    (main (sample_env [] [delivered 4 10 50 32, none])).outcome = Outcome.crashed ∧
    (main (sample_env [] [delivered 4 10 50 32, none])).state.calls =
      [XcbCall.connect, XcbCall.grab_button 99 5, XcbCall.flush,
        XcbCall.allow_events, XcbCall.flush, XcbCall.allow_events, XcbCall.flush] ∧
    (main (sample_env [] [delivered 4 10 50 32, none])).state.err = "No event.\n" ∧
    (main (sample_env [] [delivered 4 10 50 32, none])).state.out = "" := by
  decide

/-- C9, the code at the failing input.  On the normal exit route (press then
release, default options, and the same with `-G`) the call trace ends with the
ungrab request and no flush follows it, whereas the signal handler, run while
the loop waits after the press, issues the ungrab followed by a flush. -/
theorem normal_exit_does_not_flush :
    (main (sample_env [] [delivered 4 10 50 32, delivered 5 90 5 32])).outcome =
      Outcome.exited 0 ∧
    (main (sample_env [] [delivered 4 10 50 32, delivered 5 90 5 32])).state.calls =
      [XcbCall.connect, XcbCall.grab_button 99 5, XcbCall.flush,
        XcbCall.allow_events, XcbCall.flush, XcbCall.allow_events, XcbCall.flush,
        XcbCall.ungrab_button 99] ∧
    (main (sample_env ["-G"] [delivered 4 10 50 32, delivered 5 90 5 32])).state.calls =
      [XcbCall.connect, XcbCall.grab_pointer 99 5, XcbCall.flush,
        XcbCall.allow_events, XcbCall.flush, XcbCall.allow_events, XcbCall.flush,
        XcbCall.ungrab_pointer] ∧
    (sig_handler (main (sample_env [] [delivered 4 10 50 32])).state).1.calls =
      [XcbCall.connect, XcbCall.grab_button 99 5, XcbCall.flush,
        XcbCall.allow_events, XcbCall.flush, XcbCall.allow_events, XcbCall.flush,
        XcbCall.ungrab_button 99, XcbCall.flush] := by
  decide

/-! ## The output mode selected by the arguments -/

theorem short_option_output (ch : Char) (s t : State) (h : short_option ch s = some t) :
    t.output_type = (short_format ch).getD s.output_type := by
  unfold short_option at h
  unfold short_format
  split_ifs at h ⊢ <;> cases h <;> simp_all

theorem long_option_output (name : String) (s t : State) (h : long_option name s = some t) :
    t.output_type = (long_format name).getD s.output_type := by
  unfold long_option at h
  unfold long_format
  split_ifs at h ⊢ <;> cases h <;> simp_all

theorem parse_short_output (chars : List Char) (s t : State)
    (h : parse_short chars s = Except.ok t) :
    t.output_type = (chars.filterMap short_format).getLast?.getD s.output_type := by
  induction chars generalizing s with
  | nil =>
    simp only [parse_short] at h
    cases h
    rfl
  | cons ch rest ih =>
    simp only [parse_short] at h
    cases hs : short_option ch s with
    | none => rw [hs] at h; cases h
    | some s1 =>
      rw [hs] at h
      rw [ih s1 h, short_option_output ch s s1 hs]
      cases hf : short_format ch with
      | none => simp [List.filterMap_cons, hf]
      | some o =>
        simp only [List.filterMap_cons, hf, Option.getD_some]
        rw [List.getLast?_cons]
        simp

theorem parse_arg_output (arg : String) (s t : State) (h : parse_arg arg s = Except.ok t) :
    t.output_type = (arg_format_flags arg).getLast?.getD s.output_type := by
  unfold parse_arg at h
  unfold arg_format_flags
  split at h
  · rename_i name heq
    cases hl : long_option (String.mk name) s with
    | none => rw [hl] at h; cases h
    | some s1 =>
      rw [hl] at h
      cases h
      rw [long_option_output _ s _ hl]
      cases long_format (String.mk name) <;> rfl
  · exact parse_short_output _ s t h
  · cases h

theorem parse_args_output (args : List String) (s t : State)
    (h : parse_args args s = Except.ok t) :
    t.output_type = (format_flags args).getLast?.getD s.output_type := by
  induction args generalizing s with
  | nil =>
    simp only [parse_args] at h
    cases h
    rfl
  | cons arg rest ih =>
    simp only [parse_args] at h
    cases ha : parse_arg arg s with
    | error e => rw [ha] at h; cases h
    | ok s1 =>
      rw [ha] at h
      rw [ih s1 h, parse_arg_output arg s s1 ha]
      simp only [format_flags, List.getLast?_append]
      cases (format_flags rest).getLast? <;> cases (arg_format_flags arg).getLast? <;> rfl

/-! ### Which argument lists are accepted -/

theorem short_option_isSome (ch : Char) (s : State) :
    (short_option ch s).isSome = decide (ch ∈ ['G', 'm', 'w', 'h', 'p', 'r', 'g', 'j']) := by
  unfold short_option
  split_ifs <;> simp_all

theorem long_option_isSome (name : String) (s : State) :
    (long_option name s).isSome = decide (name ∈
      ["grab", "motion", "window", "help", "press", "release", "geometry", "json"]) := by
  unfold long_option
  split_ifs <;> simp_all

theorem parse_short_accepts (chars : List Char) (s : State) :
    (∃ t, parse_short chars s = Except.ok t) ↔
      chars.all (fun ch => decide (ch ∈ ['G', 'm', 'w', 'h', 'p', 'r', 'g', 'j'])) = true := by
  induction chars generalizing s with
  | nil => simp [parse_short]
  | cons ch rest ih =>
    have hs := short_option_isSome ch s
    simp only [parse_short, List.all_cons, Bool.and_eq_true]
    cases hc : short_option ch s with
    | none =>
      rw [hc] at hs
      constructor
      · rintro ⟨t, ht⟩; cases ht
      · rintro ⟨h1, -⟩
        rw [h1] at hs
        cases hs
    | some s1 =>
      rw [hc] at hs
      simp only [Option.isSome_some] at hs
      rw [← hs]
      simp only [true_and]
      exact ih s1

theorem parse_arg_accepts (arg : String) (s : State) :
    (∃ t, parse_arg arg s = Except.ok t) ↔ well_formed_arg arg = true := by
  unfold parse_arg well_formed_arg
  split
  · rename_i name heq
    have hl := long_option_isSome (String.mk name) s
    cases hc : long_option (String.mk name) s with
    | none =>
      rw [hc] at hl
      rw [← hl]
      constructor
      · rintro ⟨t, ht⟩; cases ht
      · intro h; cases h
    | some s1 =>
      rw [hc] at hl
      rw [← hl]
      exact ⟨fun _ => rfl, fun _ => ⟨s1, rfl⟩⟩
  · exact parse_short_accepts _ s
  · constructor
    · rintro ⟨t, ht⟩; cases ht
    · intro h; cases h

theorem parse_args_accepts (args : List String) (s : State) :
    (∃ t, parse_args args s = Except.ok t) ↔ ∀ a ∈ args, well_formed_arg a = true := by
  induction args generalizing s with
  | nil => simp [parse_args]
  | cons arg rest ih =>
    simp only [parse_args, List.mem_cons, forall_eq_or_imp]
    rw [← parse_arg_accepts arg s]
    cases ha : parse_arg arg s with
    | error e =>
      constructor
      · rintro ⟨t, ht⟩; cases ht
      · rintro ⟨⟨t, ht⟩, -⟩; cases ht
    | ok s1 =>
      simp only []
      rw [ih s1]
      exact ⟨fun h => ⟨⟨s1, rfl⟩, h⟩, fun h => h.2⟩

/-- C10. An argument list is accepted exactly when each argument on its own
is a long option with one of the eight names or a bundle of the eight letters,
so any number of conflicting format flags is accepted; and for every accepted
argument list the resulting `output_type` is the one named by the last format
flag of the list (long form or letter of a bundle), `OUTPUT_RELEASE` when the
list holds no format flag. -/
theorem output_type_is_last_format_flag (args : List String) (stack : click_info) :
    ((∃ s, parse_args args (initial_state stack) = Except.ok s) ↔
      ∀ a ∈ args, well_formed_arg a = true) ∧
    (∀ s, parse_args args (initial_state stack) = Except.ok s →
      s.output_type = last_format_flag args) :=
  ⟨parse_args_accepts args (initial_state stack),
    fun s h => parse_args_output args (initial_state stack) s h⟩

theorem output_type_is_last_format_flag_witness :
    parse_args ["-pg", "--json", "-wr", "--geometry", "-mjp", "-Gj", "-"]
        (initial_state sample_stack) =
      Except.ok { initial_state sample_stack with
        grab_pointer := true, print_window := true, report_motion := true,
        output_type := OUTPUT_JSON } ∧
    last_format_flag ["-pg", "--json", "-wr", "--geometry", "-mjp", "-Gj", "-"] = OUTPUT_JSON ∧
    OUTPUT_JSON = last_format_flag ["-pg", "--json", "-wr", "--geometry", "-mjp", "-Gj", "-"] :=
  ⟨rfl, by decide,
    (output_type_is_last_format_flag ["-pg", "--json", "-wr", "--geometry", "-mjp", "-Gj", "-"]
      sample_stack).2
      { initial_state sample_stack with
        grab_pointer := true, print_window := true, report_motion := true,
        output_type := OUTPUT_JSON } rfl⟩

/-! ## The state in which a signal finds the process -/

theorem loop_iteration_session (e : xcb_generic_event) (s : State) :
    (loop_iteration e s).screen = s.screen ∧
      (loop_iteration e s).grab_pointer = s.grab_pointer := by
  by_cases hp : event_code e = XCB_BUTTON_PRESS
  · rw [loop_iteration_press e s hp]; exact ⟨rfl, rfl⟩
  · by_cases hr : event_code e = XCB_BUTTON_RELEASE
    · rw [loop_iteration_release e s hr]; exact ⟨rfl, rfl⟩
    · by_cases hm : event_code e = XCB_MOTION_NOTIFY
      · rw [loop_iteration_motion e s hm]; exact ⟨rfl, rfl⟩
      · rw [loop_iteration_other e s hp hr hm]; exact ⟨rfl, rfl⟩

theorem event_loop_session (evs : List (Option xcb_generic_event)) (s : State) :
    (event_loop evs s).1.screen = s.screen ∧
      (event_loop evs s).1.grab_pointer = s.grab_pointer := by
  induction evs generalizing s with
  | nil =>
    cases hrun : s.running
    · rw [event_loop_stopped _ _ hrun]; exact ⟨rfl, rfl⟩
    · rw [event_loop_waiting _ hrun]; exact ⟨rfl, rfl⟩
  | cons ev rest ih =>
    cases hrun : s.running
    · rw [event_loop_stopped _ _ hrun]; exact ⟨rfl, rfl⟩
    · cases ev with
      | none => rw [event_loop_null _ _ hrun]; exact ⟨rfl, rfl⟩
      | some e =>
        rw [event_loop_cons _ _ _ hrun]
        have h1 := ih (loop_iteration e s)
        have h2 := loop_iteration_session e s
        exact ⟨h1.1.trans h2.1, h1.2.trans h2.2⟩

theorem acquire_session (env : Env) (s : State) :
    (acquire env s).screen = s.screen ∧ (acquire env s).grab_pointer = s.grab_pointer := by
  unfold acquire
  cases env.cursor_context <;> cases env.grab_reply <;> cases hg : s.grab_pointer <;>
    simp only [hg, if_true, Bool.false_eq_true, if_false] <;>
    (try split_ifs) <;> first | exact ⟨rfl, rfl⟩ | exact ⟨rfl, hg⟩

/-- Whenever an execution is blocked waiting for an event, `screen` is set to
the root window: the hypothesis under which the signal handler ungrabs holds
at every wait of the loop. -/
theorem main_blocked_screen (env : Env) (h : (main env).outcome = Outcome.blocked) :
    (main env).state.screen = some env.root := by
  unfold main at h ⊢
  cases hp : parse_args env.args (initial_state env.stack_click) with
  | error e => simp only [hp] at h; cases h
  | ok s =>
    simp only [hp] at h ⊢
    cases hu : s.show_usage
    · cases hc : env.connection_error
      · simp only [hu, hc, Bool.false_eq_true, if_false] at h ⊢
        have hs := event_loop_session env.events
          (acquire env { xcb s XcbCall.connect with screen := some env.root, running := true })
        have ha := acquire_session env
          { xcb s XcbCall.connect with screen := some env.root, running := true }
        generalize event_loop env.events
          (acquire env { xcb s XcbCall.connect with screen := some env.root, running := true })
          = r at h hs ⊢
        obtain ⟨s4, rest, ending⟩ := r
        cases ending
        · cases h
        · cases h
        · exact hs.1.trans ha.1
      · simp only [hu, hc, Bool.false_eq_true, if_false, if_true] at h
        cases h
    · simp only [hu, if_true] at h
      cases h

/-! ## Argument errors and the help flag -/

theorem parse_short_error (chars : List Char) (s e : State)
    (h : parse_short chars s = Except.error e) : argument_error s e := by
  induction chars generalizing s with
  | nil => simp only [parse_short] at h; cases h
  | cons ch rest ih =>
    simp only [parse_short] at h
    cases hs : short_option ch s with
    | none =>
      rw [hs] at h
      cases h
      have hlit : ("Unknown option: \"-" : String) = "Unknown option: \"" ++ "-" := by decide
      refine ⟨rfl, rfl, "-" ++ String.singleton ch, Or.inl ?_⟩
      show s.err ++ _ = _
      rw [hlit]
      simp only [String.append_assoc]
    | some s1 =>
      rw [hs] at h
      obtain ⟨-, -, -, hout, herr, hcalls⟩ := short_option_same_process ch s s1 hs
      obtain ⟨h1, h2, text, h3⟩ := ih s1 h
      exact ⟨h1.trans hout, h2.trans hcalls, text, by rw [← herr]; exact h3⟩

theorem parse_arg_error (arg : String) (s e : State)
    (h : parse_arg arg s = Except.error e) : argument_error s e := by
  unfold parse_arg at h
  split at h
  · rename_i name heq
    cases hl : long_option (String.mk name) s with
    | none =>
      rw [hl] at h
      cases h
      exact ⟨rfl, rfl, arg, Or.inl rfl⟩
    | some s1 => rw [hl] at h; cases h
  · exact parse_short_error _ s e h
  · cases h
    exact ⟨rfl, rfl, arg, Or.inr rfl⟩

theorem parse_args_error (args : List String) (s e : State)
    (h : parse_args args s = Except.error e) : argument_error s e := by
  induction args generalizing s with
  | nil => simp only [parse_args] at h; cases h
  | cons arg rest ih =>
    simp only [parse_args] at h
    cases ha : parse_arg arg s with
    | error e1 =>
      rw [ha] at h
      cases h
      exact parse_arg_error arg s _ ha
    | ok s1 =>
      rw [ha] at h
      obtain ⟨-, -, -, hout, herr, hcalls⟩ := parse_arg_same_process arg s s1 ha
      obtain ⟨h1, h2, text, h3⟩ := ih s1 h
      exact ⟨h1.trans hout, h2.trans hcalls, text, by rw [← herr]; exact h3⟩

theorem unknown_flag_not_well_formed (arg : String) (h : unknown_flag arg = true) :
    well_formed_arg arg = false := by
  unfold unknown_flag at h
  split at h
  · simpa using h
  · cases h

/-- C11. For every argument list that contains an unknown flag (an
unrecognised long option, or a short option with an unrecognised letter),
`main` returns 2 at once: no event is fetched, one diagnostic is written to the
diagnostic channel, nothing is written to the result channel and no call is
made on the connection, not even the connect. -/
theorem unknown_flag_exits_two (env : Env) (h : ∃ a ∈ env.args, unknown_flag a = true) :
    (main env).outcome = Outcome.exited 2 ∧
    (main env).pending = env.events ∧
    (main env).state.out = "" ∧
    (main env).state.calls = [] ∧
    ∃ text : String,
      (main env).state.err = "Unknown option: \"" ++ text ++ "\"\n" ∨
      (main env).state.err = "Option expected: \"" ++ text ++ "\"\n" := by
  obtain ⟨a, ha, hbad⟩ := h
  have hnot : ¬ ∃ t, parse_args env.args (initial_state env.stack_click) = Except.ok t := by
    rw [parse_args_accepts]
    intro hall
    have := hall a ha
    rw [unknown_flag_not_well_formed a hbad] at this
    cases this
  cases hp : parse_args env.args (initial_state env.stack_click) with
  | ok t => exact absurd ⟨t, hp⟩ hnot
  | error e =>
    obtain ⟨h1, h2, text, h3⟩ := parse_args_error _ _ _ hp
    have hmain : main env = { state := e, pending := env.events, outcome := Outcome.exited 2 } := by
      unfold main
      rw [hp]
    rw [hmain]
    refine ⟨rfl, rfl, h1, h2, text, ?_⟩
    simpa [initial_state] using h3

theorem unknown_flag_exits_two_witness :
    (main (sample_env ["-h", "-wxg", "--json"] [delivered 4 1 2 3])).outcome = Outcome.exited 2 ∧
    (main (sample_env ["-h", "-wxg", "--json"] [delivered 4 1 2 3])).pending =
      (sample_env ["-h", "-wxg", "--json"] [delivered 4 1 2 3]).events ∧
    (main (sample_env ["-h", "-wxg", "--json"] [delivered 4 1 2 3])).state.out = "" ∧
    (main (sample_env ["-h", "-wxg", "--json"] [delivered 4 1 2 3])).state.calls = [] ∧
    ∃ text : String,
      (main (sample_env ["-h", "-wxg", "--json"] [delivered 4 1 2 3])).state.err =
        "Unknown option: \"" ++ text ++ "\"\n" ∨
      (main (sample_env ["-h", "-wxg", "--json"] [delivered 4 1 2 3])).state.err =
        "Option expected: \"" ++ text ++ "\"\n" :=
  unknown_flag_exits_two (sample_env ["-h", "-wxg", "--json"] [delivered 4 1 2 3])
    ⟨"-wxg", by decide, by decide⟩

theorem short_option_usage (ch : Char) (s t : State) (h : short_option ch s = some t) :
    t.show_usage = (s.show_usage || decide (ch = 'h')) := by
  unfold short_option at h
  split_ifs at h <;> cases h <;> simp_all

theorem long_option_usage (name : String) (s t : State) (h : long_option name s = some t) :
    t.show_usage = (s.show_usage || decide (name = "help")) := by
  unfold long_option at h
  split_ifs at h <;> cases h <;> simp_all

theorem parse_short_usage (chars : List Char) (s t : State)
    (h : parse_short chars s = Except.ok t) :
    t.show_usage = (s.show_usage || decide ('h' ∈ chars)) := by
  induction chars generalizing s with
  | nil =>
    simp only [parse_short] at h
    cases h
    simp
  | cons ch rest ih =>
    simp only [parse_short] at h
    cases hs : short_option ch s with
    | none => rw [hs] at h; cases h
    | some s1 =>
      rw [hs] at h
      rw [ih s1 h, short_option_usage ch s s1 hs]
      by_cases hc : ch = 'h'
      · simp [hc]
      · have hc2 : ¬ 'h' = ch := fun e => hc e.symm
        simp [hc, hc2]

theorem parse_arg_usage (arg : String) (s t : State) (h : parse_arg arg s = Except.ok t) :
    t.show_usage = (s.show_usage || help_flag arg) := by
  unfold parse_arg at h
  unfold help_flag
  split at h
  · rename_i name heq
    cases hl : long_option (String.mk name) s with
    | none => rw [hl] at h; cases h
    | some s1 =>
      rw [hl] at h
      cases h
      exact long_option_usage _ s _ hl
  · exact parse_short_usage _ s t h
  · cases h

theorem parse_args_usage (args : List String) (s t : State)
    (h : parse_args args s = Except.ok t) :
    t.show_usage = (s.show_usage || args.any help_flag) := by
  induction args generalizing s with
  | nil =>
    simp only [parse_args] at h
    cases h
    simp
  | cons arg rest ih =>
    simp only [parse_args] at h
    cases ha : parse_arg arg s with
    | error e => rw [ha] at h; cases h
    | ok s1 =>
      rw [ha] at h
      rw [ih s1 h, parse_arg_usage arg s s1 ha, List.any_cons, Bool.or_assoc]

/-- C12, as the code behaves.  For every argument list that the parser
accepts (each argument well formed) and that contains a help flag (`--help`,
or the letter `h` in a short option), `main` prints the usage text and returns
0: nothing else is written, no call is made on the connection (no connect, no
grab) and no event is fetched. -/
theorem help_flag_prints_usage (env : Env)
    (haccepted : ∀ a ∈ env.args, well_formed_arg a = true)
    (hhelp : ∃ a ∈ env.args, help_flag a = true) :
    (main env).outcome = Outcome.exited 0 ∧
    (main env).state.out = usage_text env.argv0 ∧
    (main env).state.err = "" ∧
    (main env).state.calls = [] ∧
    (main env).pending = env.events := by
  obtain ⟨t, hp⟩ := (parse_args_accepts env.args (initial_state env.stack_click)).mpr haccepted
  obtain ⟨-, -, -, hout, herr, hcalls⟩ := parse_args_same_process _ _ _ hp
  have hany : env.args.any help_flag = true := by
    obtain ⟨a, ha, hh⟩ := hhelp
    exact List.any_eq_true.mpr ⟨a, ha, hh⟩
  have hu : t.show_usage = true := by
    rw [parse_args_usage _ _ _ hp, hany, Bool.or_true]
  have hmain : main env =
      { state := printf t (usage_text env.argv0), pending := env.events,
        outcome := Outcome.exited 0 } := by
    unfold main
    rw [hp]
    simp only [hu, if_true]
  rw [hmain]
  refine ⟨rfl, ?_, herr, hcalls, rfl⟩
  show t.out ++ usage_text env.argv0 = usage_text env.argv0
  rw [hout]
  simp [initial_state]

theorem help_flag_prints_usage_witness :
    (main (sample_env ["-gw", "-mh", "--press"] [delivered 4 1 2 3])).outcome =
      Outcome.exited 0 ∧
    (main (sample_env ["-gw", "-mh", "--press"] [delivered 4 1 2 3])).state.out =
      usage_text (sample_env ["-gw", "-mh", "--press"] [delivered 4 1 2 3]).argv0 ∧
    (main (sample_env ["-gw", "-mh", "--press"] [delivered 4 1 2 3])).state.err = "" ∧
    (main (sample_env ["-gw", "-mh", "--press"] [delivered 4 1 2 3])).state.calls = [] ∧
    (main (sample_env ["-gw", "-mh", "--press"] [delivered 4 1 2 3])).pending =
      (sample_env ["-gw", "-mh", "--press"] [delivered 4 1 2 3]).events :=
  help_flag_prints_usage (sample_env ["-gw", "-mh", "--press"] [delivered 4 1 2 3])
    (by decide) ⟨"-mh", by decide, by decide⟩

/-- C12 fails as stated: the argument list `--help --bogus` contains a help
flag, yet `main` returns 2 with the unknown-option diagnostic and prints no
usage text; likewise `-hx`. -/
theorem help_then_bogus_option_exits_two :
    (main (sample_env ["--help", "--bogus"] [])).outcome = Outcome.exited 2 ∧
    (main (sample_env ["--help", "--bogus"] [])).state.out = "" ∧
    (main (sample_env ["--help", "--bogus"] [])).state.err =
      "Unknown option: \"--bogus\"\n" ∧
    (main (sample_env ["-hx"] [])).outcome = Outcome.exited 2 ∧
    (main (sample_env ["-hx"] [])).state.out = "" := by
  decide

/-! ## A refused pointer grab: diagnostics -/

/-- C13. In ExclusivePointer mode, when the grab reply carries a non-success
status, the event loop is never entered (no event is fetched and no
allow-events call is made), nothing is written to the result channel, and the
diagnostic channel receives exactly the line naming the reason: already
grabbed, frozen, or error for any other status. -/
theorem refused_grab_is_diagnosed (env : Env) (s : State) (status : Nat)
    (hparse : parse_args env.args (initial_state env.stack_click) = Except.ok s)
    (hgrab : s.grab_pointer = true) (husage : s.show_usage = false)
    (hconn : env.connection_error = false)
    (hreply : env.grab_reply = some status) (hstatus : status ≠ XCB_GRAB_STATUS_SUCCESS) :
    (main env).pending = env.events ∧
    XcbCall.allow_events ∉ (main env).state.calls ∧
    (main env).state.out = "" ∧
    (status = XCB_GRAB_STATUS_ALREADY_GRABBED →
      (main env).state.err = "grab pointer already_grabbed\n") ∧
    (status = XCB_GRAB_STATUS_FROZEN → (main env).state.err = "grab pointer frozen\n") ∧
    (status ≠ XCB_GRAB_STATUS_ALREADY_GRABBED → status ≠ XCB_GRAB_STATUS_FROZEN →
      (main env).state.err = "grab pointer error\n") := by
  obtain ⟨-, -, -, hout, herr, hcalls⟩ := parse_args_same_process _ _ _ hparse
  have hout0 : s.out = "" := hout
  have herr0 : s.err = "" := herr
  have hcalls0 : s.calls = [] := hcalls
  have hacq := acquire_refused env { xcb s XcbCall.connect with
      screen := some env.root, running := true } status hgrab hreply hstatus
  have hmain : main env =
      { state := release_and_return env.root (acquire env { xcb s XcbCall.connect with
          screen := some env.root, running := true })
        pending := env.events
        outcome := Outcome.exited 0 } := by
    unfold main
    rw [hparse]
    simp only [husage, hconn, Bool.false_eq_true, if_false]
    rw [event_loop_stopped _ _ (by rw [hacq])]
  rw [hmain, hacq]
  refine ⟨rfl, ?_, ?_, ?_, ?_, ?_⟩
  · simp [release_and_return, xcb, hgrab, ungrab_call, hcalls0]
  · simp [release_and_return, xcb, hout0]
  · intro h1
    simp [release_and_return, xcb, herr0, h1]
  · intro h1
    have h2 : ¬ XCB_GRAB_STATUS_FROZEN = XCB_GRAB_STATUS_ALREADY_GRABBED := by decide
    simp [release_and_return, xcb, herr0, h1, h2]
  · intro h1 h2
    simp [release_and_return, xcb, herr0, h1, h2]

theorem refused_grab_is_diagnosed_witness :
    (main (refused_env XCB_GRAB_STATUS_FROZEN [delivered 4 1 2 3])).pending =
      (refused_env XCB_GRAB_STATUS_FROZEN [delivered 4 1 2 3]).events ∧
    XcbCall.allow_events ∉
      (main (refused_env XCB_GRAB_STATUS_FROZEN [delivered 4 1 2 3])).state.calls ∧
    (main (refused_env XCB_GRAB_STATUS_FROZEN [delivered 4 1 2 3])).state.out = "" ∧
    (XCB_GRAB_STATUS_FROZEN = XCB_GRAB_STATUS_ALREADY_GRABBED →
      (main (refused_env XCB_GRAB_STATUS_FROZEN [delivered 4 1 2 3])).state.err =
        "grab pointer already_grabbed\n") ∧
    (XCB_GRAB_STATUS_FROZEN = XCB_GRAB_STATUS_FROZEN →
      (main (refused_env XCB_GRAB_STATUS_FROZEN [delivered 4 1 2 3])).state.err =
        "grab pointer frozen\n") ∧
    (XCB_GRAB_STATUS_FROZEN ≠ XCB_GRAB_STATUS_ALREADY_GRABBED →
      XCB_GRAB_STATUS_FROZEN ≠ XCB_GRAB_STATUS_FROZEN →
      (main (refused_env XCB_GRAB_STATUS_FROZEN [delivered 4 1 2 3])).state.err =
        "grab pointer error\n") :=
  refused_grab_is_diagnosed (refused_env XCB_GRAB_STATUS_FROZEN [delivered 4 1 2 3])
    { initial_state sample_stack with grab_pointer := true } XCB_GRAB_STATUS_FROZEN
    rfl rfl rfl rfl rfl (by decide)

/-! ## Motion events and the window line -/

/-- C14. An iteration on a motion-notify event, from any state, changes
neither the click record nor `running` (so a running loop goes on to the next
event).  With motion reporting enabled it writes exactly one motion result
for the position and window of the event: the JSON object when the output
type is JSON, otherwise the line `motion X Y` followed by the window line when
window annotation was requested.  With motion reporting disabled it writes
nothing. -/
theorem motion_event_only_reports (s : State) (e : xcb_generic_event)
    (he : event_code e = XCB_MOTION_NOTIFY) :
    (loop_iteration e s).click = s.click ∧
    (loop_iteration e s).running = s.running ∧
    (∀ rest, s.running = true →
      event_loop (some e :: rest) s = event_loop rest (loop_iteration e s)) ∧
    (s.report_motion = true → s.output_type = OUTPUT_JSON →
      (loop_iteration e s).out =
        s.out ++ ("\x7b\"type\": \"motion\", \"window\": \"0x" ++ fmt_X e.child ++
          "\", \"x\": " ++ fmt_i e.root_x ++ ", \"y\": " ++ fmt_i e.root_y ++ "\x7d\n")) ∧
    (s.report_motion = true → s.output_type ≠ OUTPUT_JSON →
      (loop_iteration e s).out =
        s.out ++ ("motion " ++ fmt_i e.root_x ++ " " ++ fmt_i e.root_y ++ "\n" ++
          (if s.print_window then "window 0x" ++ fmt_X e.child ++ "\n" else ""))) ∧
    (s.report_motion = false → (loop_iteration e s).out = s.out) := by
  rw [loop_iteration_motion e s he]
  refine ⟨rfl, rfl, ?_, ?_, ?_, ?_⟩
  · intro rest hrun
    rw [event_loop_cons e rest s hrun, loop_iteration_motion e s he]
  · intro hm hj
    simp [hm, hj, motion_json_line]
  · intro hm hj
    simp [hm, hj, motion_text, motion_line, window_line]
  · intro hm
    simp [hm]

theorem motion_event_only_reports_witness :
    (loop_iteration ⟨6, 11, 51, 32⟩
      { initial_state sample_stack with running := true, report_motion := true }).out =
      "motion 11 51\n" :=
  ((motion_event_only_reports
    { initial_state sample_stack with running := true, report_motion := true }
    ⟨6, 11, 51, 32⟩ (by decide)).2.2.2.2.1 rfl (by decide)).trans (by decide)

/-- C15. In the plain formats the result line is followed by the line
`window 0x<hex id>` exactly when window annotation was requested, and the
identifier is the `child` window of the event being reported: of the press
for a press result, of the release for a release result and for a geometry
result, of the motion event for a plain motion result. -/
theorem window_line_follows_plain_results (s : State) (e : xcb_generic_event) :
    (event_code e = XCB_BUTTON_PRESS → s.output_type = OUTPUT_PRESS →
      (loop_iteration e s).out =
        s.out ++ (fmt_i e.root_x ++ " " ++ fmt_i e.root_y ++ "\n" ++
          (if s.print_window then "window 0x" ++ fmt_X e.child ++ "\n" else ""))) ∧
    (event_code e = XCB_BUTTON_RELEASE → s.output_type = OUTPUT_RELEASE →
      (loop_iteration e s).out =
        s.out ++ (fmt_i e.root_x ++ " " ++ fmt_i e.root_y ++ "\n" ++
          (if s.print_window then "window 0x" ++ fmt_X e.child ++ "\n" else ""))) ∧
    (event_code e = XCB_BUTTON_RELEASE → s.output_type = OUTPUT_GEOMETRY →
      (loop_iteration e s).out =
        s.out ++ (geometry_line (release_click e s.click) ++
          (if s.print_window then "window 0x" ++ fmt_X e.child ++ "\n" else ""))) ∧
    (event_code e = XCB_MOTION_NOTIFY → s.report_motion = true →
      s.output_type ≠ OUTPUT_JSON →
      (loop_iteration e s).out =
        s.out ++ ("motion " ++ fmt_i e.root_x ++ " " ++ fmt_i e.root_y ++ "\n" ++
          (if s.print_window then "window 0x" ++ fmt_X e.child ++ "\n" else ""))) := by
  refine ⟨?_, ?_, ?_, ?_⟩
  · intro he hmode
    rw [loop_iteration_press e s he]
    simp [hmode, press_text, point_line, window_line]
  · intro he hmode
    rw [loop_iteration_release e s he]
    simp [hmode, point_line, window_line]
  · intro he hmode
    rw [loop_iteration_release e s he]
    simp [hmode, window_line]
  · intro he hm hj
    rw [loop_iteration_motion e s he]
    simp [hm, hj, motion_text, motion_line, window_line]

theorem window_line_follows_plain_results_witness :
    (loop_iteration ⟨5, 90, 5, 47⟩
      { initial_state sample_stack with running := true, print_window := true }).out =
      "90 5\nwindow 0x2F\n" ∧
    (loop_iteration ⟨5, 90, 5, 47⟩
      { initial_state sample_stack with running := true, print_window := false }).out =
      "90 5\n" :=
  ⟨((window_line_follows_plain_results
      { initial_state sample_stack with running := true, print_window := true }
      ⟨5, 90, 5, 47⟩).2.1 (by decide) rfl).trans (by decide),
   ((window_line_follows_plain_results
      { initial_state sample_stack with running := true, print_window := false }
      ⟨5, 90, 5, 47⟩).2.1 (by decide) rfl).trans (by decide)⟩

/-! ## Short, long and bundled options -/

theorem parse_args_append (a b : List String) (s : State) :
    parse_args (a ++ b) s =
      (match parse_args a s with
        | Except.ok t => parse_args b t
        | Except.error e => Except.error e) := by
  induction a generalizing s with
  | nil => rfl
  | cons arg rest ih =>
    simp only [List.cons_append, parse_args]
    cases parse_arg arg s with
    | error e => rfl
    | ok s1 => exact ih s1

/-- Replacing the middle of an argument list by arguments that parse alike
from every state does not change the parse. -/
theorem parse_args_replace (before after mid1 mid2 : List String)
    (h : ∀ s, parse_args mid1 s = parse_args mid2 s) (s : State) :
    parse_args (before ++ (mid1 ++ after)) s = parse_args (before ++ (mid2 ++ after)) s := by
  rw [parse_args_append before, parse_args_append before]
  cases parse_args before s with
  | error e => rfl
  | ok t =>
    simp only []
    rw [parse_args_append mid1, parse_args_append mid2, h t]

theorem main_of_same_parse (env : Env) (a b : List String)
    (h : parse_args a (initial_state env.stack_click) =
      parse_args b (initial_state env.stack_click)) :
    main (with_args env a) = main (with_args env b) := by
  have hacq : ∀ (x : List String) (s : State), acquire (with_args env x) s = acquire env s :=
    fun _ _ => rfl
  unfold main
  simp only [hacq]
  simp only [with_args]
  rw [h]

theorem parse_args_single (arg : String) (s : State) :
    parse_args [arg] s = parse_arg arg s := by
  simp only [parse_args]
  cases parse_arg arg s <;> rfl

theorem parse_arg_short_arg (ch : Char) (s : State) :
    parse_arg (short_arg ch) s = parse_short [ch] s := by
  by_cases hc : ch = '-'
  · subst hc
    have hlit : ("Unknown option: \"-" : String) ++ String.singleton '-' ++ "\"\n" =
        "Unknown option: \"" ++ short_arg '-' ++ "\"\n" := by decide
    simp only [parse_arg, short_arg, parse_short]
    have h1 : long_option (String.mk []) s = none := by
      unfold long_option
      simp
    have h2 : short_option '-' s = none := by
      unfold short_option
      simp
    rw [h1, h2]
    simp only []
    rw [hlit]
    rfl
  · unfold parse_arg short_arg
    simp only []
    split
    · rename_i name heq
      simp only [List.cons.injEq] at heq
      exact absurd heq.2.1 hc
    · rename_i rest hnot heq
      simp only [List.cons.injEq, true_and] at heq
      rw [← heq]
    · rename_i h1 h2
      exact absurd rfl (h2 [ch])

theorem parse_short_as_singles (letters : List Char) (s : State) :
    parse_short letters s = parse_args (letters.map short_arg) s := by
  induction letters generalizing s with
  | nil => rfl
  | cons ch rest ih =>
    simp only [List.map_cons, parse_args, parse_arg_short_arg, parse_short]
    cases short_option ch s with
    | none => rfl
    | some s1 => exact ih s1

theorem parse_arg_bundle (letters : List Char) (h : letters.head? ≠ some '-') (s : State) :
    parse_arg (bundle_arg letters) s = parse_short letters s := by
  unfold parse_arg bundle_arg
  simp only []
  split
  · rename_i name heq
    simp only [List.cons.injEq, true_and] at heq
    rw [heq] at h
    exact absurd rfl h
  · rename_i rest hnot heq
    simp only [List.cons.injEq, true_and] at heq
    rw [heq]
  · rename_i h1 h2
    exact absurd rfl (h2 letters)

theorem short_equals_long (short long : String)
    (h : (short, long) ∈ [("-G", "--grab"), ("-m", "--motion"), ("-w", "--window"),
      ("-h", "--help"), ("-p", "--press"), ("-r", "--release"), ("-g", "--geometry"),
      ("-j", "--json")]) (s : State) :
    parse_arg short s = parse_arg long s := by
  simp only [List.mem_cons, Prod.mk.injEq, List.mem_singleton, List.not_mem_nil, or_false] at h
  rcases h with h | h | h | h | h | h | h | h <;> (rw [h.1, h.2]; rfl)

/-- C16. Each short option parses, from every state, exactly as the long
option the usage text pairs it with, so exchanging one for the other anywhere
in an argument list changes nothing of the execution.  A bundled short option
parses, from every state, exactly as its letters given as separate short
options in the same order (same configuration on success, same diagnostic and
state on failure), so the execution is the same as well. -/
theorem short_long_and_bundled_options_agree (env : Env) (before after : List String) :
    (∀ short long,
      (short, long) ∈ [("-G", "--grab"), ("-m", "--motion"), ("-w", "--window"),
        ("-h", "--help"), ("-p", "--press"), ("-r", "--release"), ("-g", "--geometry"),
        ("-j", "--json")] →
      (∀ s, parse_arg short s = parse_arg long s) ∧
      (∀ s, parse_args (before ++ ([short] ++ after)) s =
        parse_args (before ++ ([long] ++ after)) s) ∧
      main (with_args env (before ++ ([short] ++ after))) =
        main (with_args env (before ++ ([long] ++ after)))) ∧
    (∀ letters : List Char, letters.head? ≠ some '-' →
      (∀ s, parse_args (before ++ ([bundle_arg letters] ++ after)) s =
        parse_args (before ++ (letters.map short_arg ++ after)) s) ∧
      main (with_args env (before ++ ([bundle_arg letters] ++ after))) =
        main (with_args env (before ++ (letters.map short_arg ++ after)))) := by
  constructor
  · intro short long h
    have hone : ∀ s, parse_args [short] s = parse_args [long] s := fun s => by
      rw [parse_args_single, parse_args_single, short_equals_long short long h s]
    exact ⟨short_equals_long short long h,
      parse_args_replace before after [short] [long] hone,
      main_of_same_parse env _ _ (parse_args_replace before after [short] [long] hone _)⟩
  · intro letters h
    have hone : ∀ s, parse_args [bundle_arg letters] s = parse_args (letters.map short_arg) s :=
      fun s => by
        rw [parse_args_single, parse_arg_bundle letters h s, parse_short_as_singles]
    exact ⟨parse_args_replace before after _ _ hone,
      main_of_same_parse env _ _ (parse_args_replace before after _ _ hone _)⟩

theorem short_long_and_bundled_options_agree_witness :
    main (with_args (sample_env [] [delivered 4 10 50 32, delivered 5 90 5 33])
        (["-p"] ++ ([bundle_arg ['G', 'g', 'w']] ++ ["--json"]))) =
      main (with_args (sample_env [] [delivered 4 10 50 32, delivered 5 90 5 33])
        (["-p"] ++ (['G', 'g', 'w'].map short_arg ++ ["--json"]))) ∧
    main (with_args (sample_env [] [delivered 4 10 50 32, delivered 5 90 5 33])
        (["-p"] ++ (["-g"] ++ ["-w"]))) =
      main (with_args (sample_env [] [delivered 4 10 50 32, delivered 5 90 5 33])
        (["-p"] ++ (["--geometry"] ++ ["-w"]))) :=
  ⟨((short_long_and_bundled_options_agree
      (sample_env [] [delivered 4 10 50 32, delivered 5 90 5 33]) ["-p"] ["--json"]).2
      ['G', 'g', 'w'] (by decide)).2,
   ((short_long_and_bundled_options_agree
      (sample_env [] [delivered 4 10 50 32, delivered 5 90 5 33]) ["-p"] ["-w"]).1
      "-g" "--geometry" (by decide)).2.2⟩

/-! ## What PressOnly mode with motion reporting writes -/

theorem press_mode_iteration_out (s : State) (hmode : s.output_type = OUTPUT_PRESS)
    (hmotion : s.report_motion = true) (e : xcb_generic_event)
    (he : event_code e ≠ XCB_BUTTON_RELEASE) :
    (loop_iteration e s).out = s.out ++ press_mode_text s.print_window e := by
  unfold press_mode_text
  by_cases hp : event_code e = XCB_BUTTON_PRESS
  · rw [loop_iteration_press e s hp]
    simp [hmode, hp]
  · by_cases hm : event_code e = XCB_MOTION_NOTIFY
    · rw [loop_iteration_motion e s hm, if_neg hp, if_pos hm]
      simp [hmode, hmotion]
    · rw [loop_iteration_other e s hp he hm, if_neg hp, if_neg hm]
      simp

theorem press_mode_iterations_out (evs : List xcb_generic_event)
    (hevs : ∀ e ∈ evs, event_code e ≠ XCB_BUTTON_RELEASE) (s : State)
    (hrun : s.running = true) (hmode : s.output_type = OUTPUT_PRESS)
    (hmotion : s.report_motion = true) :
    (loop_iterations evs s).out = s.out ++ press_mode_texts s.print_window evs := by
  induction evs generalizing s with
  | nil => simp [loop_iterations, press_mode_texts]
  | cons e rest ih =>
    have he := hevs e (List.mem_cons_self e rest)
    have hinv := press_motion_invariant s.print_window s e ⟨hrun, hmode, hmotion, rfl⟩ he
    have hnext := ih (fun x hx => hevs x (List.mem_cons_of_mem e hx)) (loop_iteration e s)
      hinv.1 hinv.2.1 hinv.2.2.1
    simp only [loop_iterations, press_mode_texts]
    rw [hnext, hinv.2.2.2, press_mode_iteration_out s hmode hmotion e he, String.append_assoc]

/-- C17, as the code behaves.  In PressOnly mode with motion reporting
enabled, along any stream of delivered events without a release, what the loop
writes to the result channel is, event by event, a press result for each
button press (the first one and every later one), a motion result for each
motion event and nothing for any other event; a release that follows writes
nothing. -/
theorem press_mode_with_motion_output (s : State)
    (hrun : s.running = true) (hmode : s.output_type = OUTPUT_PRESS)
    (hmotion : s.report_motion = true)
    (evs : List xcb_generic_event) (hevs : ∀ e ∈ evs, event_code e ≠ XCB_BUTTON_RELEASE)
    (release : xcb_generic_event) (hrelease : event_code release = XCB_BUTTON_RELEASE)
    (rest : List (Option xcb_generic_event)) :
    (event_loop (evs.map some) s).1.out = s.out ++ press_mode_texts s.print_window evs ∧
    (event_loop (evs.map some ++ some release :: rest) s).1.out =
      s.out ++ press_mode_texts s.print_window evs := by
  have hpre := fun tail => event_loop_along
    (fun t => t.running = true ∧ t.output_type = OUTPUT_PRESS ∧ t.report_motion = true ∧
      t.print_window = s.print_window)
    (fun e => event_code e ≠ XCB_BUTTON_RELEASE)
    (fun t ht => ht.1) (fun t e ht he => press_motion_invariant s.print_window t e ht he)
    evs hevs s ⟨hrun, hmode, hmotion, rfl⟩ tail
  obtain ⟨h0, hrun1, hmode1, -, -⟩ := hpre []
  rw [List.append_nil] at h0
  have hout := press_mode_iterations_out evs hevs s hrun hmode hmotion
  have hr1 := loop_iteration_release release (loop_iterations evs s) hrelease
  have hrstop : (loop_iteration release (loop_iterations evs s)).running = false := by
    rw [hr1]
  rw [h0, (hpre (some release :: rest)).1, event_loop_waiting _ hrun1,
    event_loop_cons _ _ _ hrun1, event_loop_stopped _ _ hrstop]
  refine ⟨hout, ?_⟩
  rw [hr1]
  simp [hmode1, hout]

theorem press_mode_with_motion_output_witness :
    (event_loop ([(⟨4, 10, 50, 32⟩ : xcb_generic_event), ⟨6, 11, 51, 32⟩, ⟨4, 12, 52, 32⟩].map some
        ++ some ⟨5, 90, 5, 34⟩ :: [some ⟨6, 14, 54, 35⟩])
      { initial_state sample_stack with
        running := true, output_type := OUTPUT_PRESS, report_motion := true }).1.out =
      "10 50\nmotion 11 51\n12 52\n" :=
  ((press_mode_with_motion_output
    { initial_state sample_stack with
      running := true, output_type := OUTPUT_PRESS, report_motion := true }
    rfl rfl rfl [⟨4, 10, 50, 32⟩, ⟨6, 11, 51, 32⟩, ⟨4, 12, 52, 32⟩] (by decide)
    ⟨5, 90, 5, 34⟩ (by decide) [some ⟨6, 14, 54, 35⟩]).2).trans (by decide)

/-- C17 fails as stated: with `-p -m`, a second button press after the first
press result writes a second press result. -/
theorem press_mode_second_press_is_reported :
    (main (sample_env ["-p", "-m"]
      [delivered 4 10 50 32, delivered 6 11 51 32, delivered 4 20 60 32])).state.out =
      "10 50\nmotion 11 51\n20 60\n" ∧
    (main (sample_env ["-p", "-m"]
      [delivered 4 10 50 32, delivered 6 11 51 32, delivered 4 20 60 32])).outcome =
      Outcome.blocked := by
  decide

/-! ## The 32-bit arithmetic of width and height -/

theorem wrap32_of_InInt32 (x : Int) (h : InInt32 x) : wrap32 x = x := by
  unfold InInt32 at h
  unfold wrap32
  omega

/-- For two `int16_t` values, the sum, twice the minimum and their difference
are within the 32-bit range, and the difference is the distance, at most
65535. -/
theorem span_in_range (p r : Int) (hp : InInt16 p) (hr : InInt16 r) :
    InInt32 (p + r) ∧ InInt32 (2 * min p r) ∧ InInt32 (p + r - 2 * min p r) ∧
      |p - r| = p + r - 2 * min p r ∧ 0 ≤ |p - r| ∧ |p - r| ≤ 65535 := by
  unfold InInt16 at hp hr
  unfold InInt32
  rcases le_total p r with h | h
  · rw [min_eq_left h, abs_of_nonpos (by omega)]
    omega
  · rw [min_eq_right h, abs_of_nonneg (by omega)]
    omega

/-- C18. For a press and a release with coordinates in the signed 16-bit range
(any events that are not button events in between), each value computed by the
expressions `press + release - 2 * min` of lines 328-331 (the sum, twice the
minimum, and their difference) is within the range of a 32-bit `int`, so the
stored width and height are the exact differences, and they lie in
`[0, 65535]`. -/
theorem width_height_within_int (s : State) (press release : xcb_generic_event)
    (mids : List xcb_generic_event)
    (hpress : event_code press = XCB_BUTTON_PRESS)
    (hrelease : event_code release = XCB_BUTTON_RELEASE)
    (hmids : ∀ e ∈ mids, not_button e)
    (hpx : InInt16 press.root_x) (hpy : InInt16 press.root_y)
    (hrx : InInt16 release.root_x) (hry : InInt16 release.root_y) :
    let c := (loop_iteration release (loop_iterations mids (loop_iteration press s))).click
    (InInt32 (c.press_x + c.release_x) ∧ InInt32 (2 * c.min_x) ∧
      InInt32 (c.press_x + c.release_x - 2 * c.min_x) ∧
      c.width = c.press_x + c.release_x - 2 * c.min_x ∧ 0 ≤ c.width ∧ c.width ≤ 65535) ∧
    (InInt32 (c.press_y + c.release_y) ∧ InInt32 (2 * c.min_y) ∧
      InInt32 (c.press_y + c.release_y - 2 * c.min_y) ∧
      c.height = c.press_y + c.release_y - 2 * c.min_y ∧ 0 ≤ c.height ∧ c.height ≤ 65535) ∧
    c.press_x = press.root_x ∧ c.press_y = press.root_y ∧
    c.release_x = release.root_x ∧ c.release_y = release.root_y := by
  intro c
  have hc : c = release_click release (loop_iteration press s).click := by
    show (loop_iteration release _).click = _
    rw [loop_iteration_release release _ hrelease]
    show release_click release (loop_iterations mids (loop_iteration press s)).click = _
    rw [(loop_iterations_not_button mids hmids _).1]
  rw [loop_iteration_press press s hpress] at hc
  simp only [] at hc
  rw [release_click_of_pressed release _ press.root_x press.root_y press.child
    hpx hpy hrx hry] at hc
  rw [hc]
  exact ⟨span_in_range _ _ hpx hrx, span_in_range _ _ hpy hry, rfl, rfl, rfl, rfl⟩

theorem width_height_within_int_witness :
    let c := (loop_iteration ⟨5, -32768, 32767, 33⟩
      (loop_iterations [⟨6, 50, 50, 0⟩] (loop_iteration ⟨4, 32767, -32768, 32⟩
        (initial_state sample_stack)))).click
    (InInt32 (c.press_x + c.release_x) ∧ InInt32 (2 * c.min_x) ∧
      InInt32 (c.press_x + c.release_x - 2 * c.min_x) ∧
      c.width = c.press_x + c.release_x - 2 * c.min_x ∧ 0 ≤ c.width ∧ c.width ≤ 65535) ∧
    (InInt32 (c.press_y + c.release_y) ∧ InInt32 (2 * c.min_y) ∧
      InInt32 (c.press_y + c.release_y - 2 * c.min_y) ∧
      c.height = c.press_y + c.release_y - 2 * c.min_y ∧ 0 ≤ c.height ∧ c.height ≤ 65535) ∧
    c.press_x = 32767 ∧ c.press_y = -32768 ∧ c.release_x = -32768 ∧ c.release_y = 32767 :=
  width_height_within_int (initial_state sample_stack) ⟨4, 32767, -32768, 32⟩
    ⟨5, -32768, 32767, 33⟩ [⟨6, 50, 50, 0⟩] (by decide) (by decide) (by decide) (by decide)
    (by decide) (by decide) (by decide)

/-! ## Several presses before the release -/

theorem loop_iterations_append (xs ys : List xcb_generic_event) (s : State) :
    loop_iterations (xs ++ ys) s = loop_iterations ys (loop_iterations xs s) := by
  induction xs generalizing s with
  | nil => rfl
  | cons e rest ih => exact ih (loop_iteration e s)

/-- Outside PressOnly mode, an iteration on an event that is not a release
keeps the loop running and the options, and writes the motion result of the
event if there is one. -/
theorem drag_iteration (s0 s : State) (e : xcb_generic_event)
    (hmode : s0.output_type ≠ OUTPUT_PRESS)
    (hs : s.running = true ∧ s.output_type = s0.output_type ∧
      s.report_motion = s0.report_motion ∧ s.print_window = s0.print_window)
    (he : event_code e ≠ XCB_BUTTON_RELEASE) :
    ((loop_iteration e s).running = true ∧ (loop_iteration e s).output_type = s0.output_type ∧
      (loop_iteration e s).report_motion = s0.report_motion ∧
      (loop_iteration e s).print_window = s0.print_window) ∧
    (loop_iteration e s).out = s.out ++ motion_report s0 e := by
  obtain ⟨h1, h2, h3, h4⟩ := hs
  have hm : s.output_type ≠ OUTPUT_PRESS := by rw [h2]; exact hmode
  unfold motion_report
  by_cases hp : event_code e = XCB_BUTTON_PRESS
  · have hnm : ¬ (event_code e = XCB_MOTION_NOTIFY ∧ s0.report_motion = true) := by
      rw [hp]; intro h; exact absurd h.1 (by decide)
    rw [loop_iteration_press e s hp, if_neg hnm]
    simp only [if_neg hm]
    exact ⟨⟨h1, h2, h3, h4⟩, by simp⟩
  · by_cases hmo : event_code e = XCB_MOTION_NOTIFY
    · rw [loop_iteration_motion e s hmo]
      refine ⟨⟨h1, h2, h3, h4⟩, ?_⟩
      simp only [h2, h3, h4, hmo, true_and]
    · have hnm : ¬ (event_code e = XCB_MOTION_NOTIFY ∧ s0.report_motion = true) :=
        fun h => hmo h.1
      rw [loop_iteration_other e s hp he hmo, if_neg hnm]
      exact ⟨⟨h1, h2, h3, h4⟩, by simp⟩

theorem drag_iterations_out (s0 : State) (hmode : s0.output_type ≠ OUTPUT_PRESS)
    (evs : List xcb_generic_event) (hevs : ∀ e ∈ evs, event_code e ≠ XCB_BUTTON_RELEASE)
    (s : State)
    (hs : s.running = true ∧ s.output_type = s0.output_type ∧
      s.report_motion = s0.report_motion ∧ s.print_window = s0.print_window) :
    (loop_iterations evs s).out = s.out ++ motion_reports s0 evs := by
  induction evs generalizing s with
  | nil => simp [loop_iterations, motion_reports]
  | cons e rest ih =>
    have hstep := drag_iteration s0 s e hmode hs (hevs e (List.mem_cons_self e rest))
    have hnext := ih (fun x hx => hevs x (List.mem_cons_of_mem e hx)) (loop_iteration e s)
      hstep.1
    simp only [loop_iterations, motion_reports]
    rw [hnext, hstep.2, String.append_assoc]

/-- C19. In the release, geometry and JSON output modes, an iteration on a
button press writes nothing, leaves `running` as it is and overwrites the
press position, the press window and the minimum seed.  For a stream made of
any events other than a release (presses among them), then a last press,
events that are not button events and the first release, the loop stops at
the release; the click record holds the position and window of the last press
and of the release, with the minimum corner and the absolute differences of
these two points; and the result channel receives the motion results of the
motion events (when motion is reported) followed by exactly one click result,
the one of that record. -/
theorem last_press_wins (s : State)
    (hrun : s.running = true) (hmode : s.output_type ≠ OUTPUT_PRESS)
    (before mids : List xcb_generic_event) (press release : xcb_generic_event)
    (hbefore : ∀ e ∈ before, event_code e ≠ XCB_BUTTON_RELEASE)
    (hpress : event_code press = XCB_BUTTON_PRESS)
    (hmids : ∀ e ∈ mids, not_button e)
    (hrelease : event_code release = XCB_BUTTON_RELEASE)
    (hpx : InInt16 press.root_x) (hpy : InInt16 press.root_y)
    (hrx : InInt16 release.root_x) (hry : InInt16 release.root_y)
    (rest : List (Option xcb_generic_event)) :
    (∀ e, event_code e = XCB_BUTTON_PRESS →
      (loop_iteration e s).out = s.out ∧ (loop_iteration e s).running = s.running ∧
      (loop_iteration e s).click =
        { s.click with press_window := e.child, press_x := e.root_x, press_y := e.root_y,
                       min_x := e.root_x, min_y := e.root_y }) ∧
    (event_loop ((before ++ press :: mids).map some ++ some release :: rest) s).2 =
      (rest, LoopEnd.finished) ∧
    (event_loop ((before ++ press :: mids).map some ++ some release :: rest) s).1.click =
      { press_x := press.root_x, press_y := press.root_y,
        release_x := release.root_x, release_y := release.root_y,
        min_x := min press.root_x release.root_x, min_y := min press.root_y release.root_y,
        width := |press.root_x - release.root_x|, height := |press.root_y - release.root_y|,
        press_window := press.child, release_window := release.child } ∧
    (event_loop ((before ++ press :: mids).map some ++ some release :: rest) s).1.out =
      s.out ++ motion_reports s (before ++ press :: mids) ++
        release_text s.output_type s.print_window
          { press_x := press.root_x, press_y := press.root_y,
            release_x := release.root_x, release_y := release.root_y,
            min_x := min press.root_x release.root_x, min_y := min press.root_y release.root_y,
            width := |press.root_x - release.root_x|, height := |press.root_y - release.root_y|,
            press_window := press.child, release_window := release.child } := by
  constructor
  · intro e he
    rw [loop_iteration_press e s he]
    simp [hmode]
  · have hall : ∀ e ∈ before ++ press :: mids, event_code e ≠ XCB_BUTTON_RELEASE := by
      intro e he
      rcases List.mem_append.mp he with h | h
      · exact hbefore e h
      · rcases List.mem_cons.mp h with h | h
        · rw [h, hpress]; decide
        · exact (hmids e h).2
    obtain ⟨h0, hrun0, hmode0, -, hwin0⟩ := event_loop_along
      (fun t => t.running = true ∧ t.output_type = s.output_type ∧
        t.report_motion = s.report_motion ∧ t.print_window = s.print_window)
      (fun e => event_code e ≠ XCB_BUTTON_RELEASE)
      (fun t ht => ht.1) (fun t e ht he => (drag_iteration s t e hmode ht he).1)
      (before ++ press :: mids) hall s ⟨hrun, rfl, rfl, rfl⟩ (some release :: rest)
    have hout0 := drag_iterations_out s hmode (before ++ press :: mids) hall s
      ⟨hrun, rfl, rfl, rfl⟩
    have hclick0 : (loop_iterations (before ++ press :: mids) s).click =
        { (loop_iterations before s).click with
          press_window := press.child, press_x := press.root_x, press_y := press.root_y,
          min_x := press.root_x, min_y := press.root_y } := by
      rw [loop_iterations_append]
      show (loop_iterations mids (loop_iteration press (loop_iterations before s))).click = _
      rw [(loop_iterations_not_button mids hmids _).1, loop_iteration_press press _ hpress]
    have hr := loop_iteration_release release (loop_iterations (before ++ press :: mids) s)
      hrelease
    rw [hclick0, release_click_of_pressed release (loop_iterations before s).click
      press.root_x press.root_y press.child hpx hpy hrx hry] at hr
    have hstop : (loop_iteration release
        (loop_iterations (before ++ press :: mids) s)).running = false := by
      rw [hr]
    rw [h0, event_loop_cons _ _ _ hrun0, event_loop_stopped _ _ hstop]
    refine ⟨rfl, ?_, ?_⟩
    · show (loop_iteration release _).click = _
      rw [hr]
    · show (loop_iteration release _).out = _
      rw [hr]
      simp only [hmode0, hwin0, hout0]
      cases s.output_type <;> rfl

theorem last_press_wins_witness :
    (event_loop ((([⟨4, 1, 1, 30⟩, ⟨6, 2, 2, 31⟩] : List xcb_generic_event) ++
        (⟨4, 10, 50, 32⟩ : xcb_generic_event) :: ([⟨6, 20, 20, 40⟩] : List xcb_generic_event)).map
          some ++ some ⟨5, 90, 5, 47⟩ :: [])
      { initial_state sample_stack with
        running := true, output_type := OUTPUT_GEOMETRY, report_motion := true }).1.out =
      "motion 2 2\nmotion 20 20\n80x45+10+5\n" :=
  ((last_press_wins
    { initial_state sample_stack with
      running := true, output_type := OUTPUT_GEOMETRY, report_motion := true }
    rfl (by decide) ([⟨4, 1, 1, 30⟩, ⟨6, 2, 2, 31⟩] : List xcb_generic_event)
    ([⟨6, 20, 20, 40⟩] : List xcb_generic_event) (⟨4, 10, 50, 32⟩ : xcb_generic_event)
    (⟨5, 90, 5, 47⟩ : xcb_generic_event) (by decide) (by decide) (by decide) (by decide)
    (by decide) (by decide) (by decide) (by decide) []).2.2.2).trans (by decide)

end Xpromptpoint
